import Mathlib

/-!
Shallow embedding of the lexer in `src/token.rs` of the rhai fork
(the tokenizer of an embeddable scripting language), together with
theorems checking the natural-language specification against it.

Conventions of the embedding:
* Rust `u16` fields are `Nat` with the saturation / wrap-around made
  explicit (`% 65536`, guarded increments), as in the source.
* The character input stream (`MultiInputsStream` restricted to a single
  source, plus its one-character pushback buffer) is a `List Char`;
  `unget c` is `c :: rest`, `peek_next` is `head?`, `get_next` pops.
* Rust panics (assertion failures, `unwrap` on `None`, `unreachable!`)
  are modelled by an explicit `Stuck.panicked` outcome; loops whose
  termination is by stream exhaustion carry fuel, and running out of
  fuel is the separate outcome `Stuck.noFuel` (never reached when the
  fuel is at least the stream length plus one).
* The crate is embedded with its default feature set: floats enabled,
  `decimal` disabled, functions/modules/object maps enabled, ASCII-only
  identifiers (`unicode-xid-ident` off).
* `FLOAT` constants are represented by the accepted source text of the
  literal (no claim in scope depends on floating-point values); `INT` is
  `i64`, modelled as `Int` with the explicit range check.
-/

namespace Rhai

/-- Outcome marker for computations that can panic (`Stuck.panicked`,
modelling Rust panics) or exhaust their fuel (`Stuck.noFuel`). -/
inductive Stuck where
  | panicked : Stuck
  | noFuel : Stuck
deriving DecidableEq

/-- A location (line number + character position), from `struct Position`:
both coordinates have 16-bit resolution in the source; `line = 0`,
`pos = 0` is the "no position" sentinel. -/
structure Position where
  line : Nat
  pos : Nat
deriving DecidableEq

/-- The `Position::NONE` sentinel. -/
def Position.NONE : Position := ⟨0, 0⟩

/-- The `Position::START` value (line 1, beginning of line). -/
def Position.START : Position := ⟨1, 0⟩

/-- `Position::is_none`. -/
def Position.is_none (p : Position) : Bool := p.line == 0 && p.pos == 0

/-- `Position::is_beginning_of_line`. -/
def Position.isBeginningOfLine (p : Position) : Bool := p.pos == 0 && !p.is_none

/-- The field update performed by `Position::advance` (saturating at the
`u16` maximum), without the assertion. -/
def advanceCore (p : Position) : Position :=
  if p.pos < 65535 then ⟨p.line, p.pos + 1⟩ else p

/-- The field update performed by `Position::new_line` (saturating at the
`u16` maximum), without the assertion. -/
def newLineCore (p : Position) : Position :=
  if p.line < 65535 then ⟨p.line + 1, 0⟩ else p

/-- The field update performed by `Position::rewind`, without the
assertions (`Nat` subtraction; the callers below only rewind positions
with `pos ≥ 1`). -/
def rewindCore (p : Position) : Position := ⟨p.line, p.pos - 1⟩

/-- `Position::advance`: asserts the position is not the sentinel
(modelled as `none`), then advances the column, saturating. -/
def Position.advance (p : Position) : Option Position :=
  if p.is_none then none else some (advanceCore p)

/-- `Position::new_line`: asserts the position is not the sentinel, then
advances the line and resets the column, saturating. -/
def Position.new_line (p : Position) : Option Position :=
  if p.is_none then none else some (newLineCore p)

/-- `Position::rewind`: asserts the position is not the sentinel and the
column is nonzero, then moves the column back by one. -/
def Position.rewind (p : Position) : Option Position :=
  if p.is_none || p.pos == 0 then none else some (rewindCore p)

/-- `impl Add for Position`: splice-addition of two positions.  The `u16`
arithmetic `a + b - 1` of the source is made explicit as wrap-around
modulo 2^16 (release-mode semantics; debug builds would panic on
overflow at the same inputs). -/
def addPos (a b : Position) : Position :=
  if b.is_none then a
  else
    ⟨(a.line + b.line + 65535) % 65536,
      if b.isBeginningOfLine then a.pos else (a.pos + b.pos + 65535) % 65536⟩

/-- `LexError`: the error kinds carried by error tokens (from the crate's
error module; the variant list is as used by `token.rs`). -/
inductive LexError where
  | UnexpectedInput (s : String)
  | UnterminatedString
  | StringTooLong (max : Nat)
  | MalformedEscapeSequence (s : String)
  | MalformedNumber (s : String)
  | MalformedChar (s : String)
  | MalformedIdentifier (s : String)
  | ImproperSymbol (s : String) (msg : String)
deriving DecidableEq

/-- Modelled from the spec: the `Display` rendering of `LexError` lives in
the crate's error module, which is outside the sources in scope.  Only the
fact that each kind renders to some text matters here (it is used by
`Token::syntax` for error tokens, which no claim exercises). -/
def lexErrorText : LexError → String
  | .UnexpectedInput s => "Unexpected '" ++ s ++ "'"
  | .UnterminatedString => "Open string is not terminated"
  | .StringTooLong m => "Length of string literal exceeds the maximum limit (" ++ toString m ++ ")"
  | .MalformedEscapeSequence s => "Invalid escape sequence: " ++ s
  | .MalformedNumber s => "Invalid number: " ++ s
  | .MalformedChar s => "Invalid character: " ++ s
  | .MalformedIdentifier s => "Variable name is not proper: " ++ s
  | .ImproperSymbol s d =>
    if d.isEmpty then "Invalid symbol encountered: " ++ s else d

/-- `enum Token` with the default feature set: `FloatConstant` carries the
accepted literal text (see the module comment), `DecimalConstant` is
absent (`decimal` feature off), and the `no_function` / `no_module`
variants `Fn`, `Private`, `Import`, `Export`, `As` are present. -/
inductive Token where
  | IntegerConstant (i : Int)
  | FloatConstant (f : String)
  | Identifier (s : String)
  | CharConstant (c : Char)
  | StringConstant (s : String)
  | Null
  | LeftBrace
  | RightBrace
  | LeftParen
  | RightParen
  | LeftBracket
  | RightBracket
  | Plus
  | UnaryPlus
  | Minus
  | UnaryMinus
  | Multiply
  | Divide
  | Modulo
  | PowerOf
  | LeftShift
  | RightShift
  | SemiColon
  | Colon
  | DoubleColon
  | DoubleArrow
  | Underscore
  | Comma
  | Period
  | MapStart
  | Equals
  | True
  | False
  | Let
  | Const
  | If
  | Else
  | Switch
  | Do
  | While
  | Until
  | Loop
  | For
  | In
  | LessThan
  | GreaterThan
  | LessThanEqualsTo
  | GreaterThanEqualsTo
  | EqualsTo
  | NotEqualsTo
  | Bang
  | Pipe
  | Or
  | XOr
  | Ampersand
  | And
  | Fn
  | Continue
  | Break
  | Return
  | Throw
  | Try
  | Catch
  | PlusAssign
  | MinusAssign
  | MultiplyAssign
  | DivideAssign
  | LeftShiftAssign
  | RightShiftAssign
  | AndAssign
  | OrAssign
  | XOrAssign
  | ModuloAssign
  | PowerOfAssign
  | Private
  | Import
  | Export
  | As
  | LexError (e : LexError)
  | Comment (s : String)
  | Reserved (s : String)
  | Custom (s : String)
  | EOF

/-- Injective encoding of `Token` into a tuple with decidable equality
(used to build the `DecidableEq Token` instance without a quadratic case
split). The first component is the constructor tag; the remaining
components carry the payload of the corresponding variant (with fixed
default values for variants that lack that payload). -/
def tokEnc : Token → Nat × Int × String × Char × LexError
  | .IntegerConstant i => (0, i, "", 'a', .UnterminatedString)
  | .FloatConstant f => (1, 0, f, 'a', .UnterminatedString)
  | .Identifier s => (2, 0, s, 'a', .UnterminatedString)
  | .CharConstant c => (3, 0, "", c, .UnterminatedString)
  | .StringConstant s => (4, 0, s, 'a', .UnterminatedString)
  | .Null => (5, 0, "", 'a', .UnterminatedString)
  | .LeftBrace => (6, 0, "", 'a', .UnterminatedString)
  | .RightBrace => (7, 0, "", 'a', .UnterminatedString)
  | .LeftParen => (8, 0, "", 'a', .UnterminatedString)
  | .RightParen => (9, 0, "", 'a', .UnterminatedString)
  | .LeftBracket => (10, 0, "", 'a', .UnterminatedString)
  | .RightBracket => (11, 0, "", 'a', .UnterminatedString)
  | .Plus => (12, 0, "", 'a', .UnterminatedString)
  | .UnaryPlus => (13, 0, "", 'a', .UnterminatedString)
  | .Minus => (14, 0, "", 'a', .UnterminatedString)
  | .UnaryMinus => (15, 0, "", 'a', .UnterminatedString)
  | .Multiply => (16, 0, "", 'a', .UnterminatedString)
  | .Divide => (17, 0, "", 'a', .UnterminatedString)
  | .Modulo => (18, 0, "", 'a', .UnterminatedString)
  | .PowerOf => (19, 0, "", 'a', .UnterminatedString)
  | .LeftShift => (20, 0, "", 'a', .UnterminatedString)
  | .RightShift => (21, 0, "", 'a', .UnterminatedString)
  | .SemiColon => (22, 0, "", 'a', .UnterminatedString)
  | .Colon => (23, 0, "", 'a', .UnterminatedString)
  | .DoubleColon => (24, 0, "", 'a', .UnterminatedString)
  | .DoubleArrow => (25, 0, "", 'a', .UnterminatedString)
  | .Underscore => (26, 0, "", 'a', .UnterminatedString)
  | .Comma => (27, 0, "", 'a', .UnterminatedString)
  | .Period => (28, 0, "", 'a', .UnterminatedString)
  | .MapStart => (29, 0, "", 'a', .UnterminatedString)
  | .Equals => (30, 0, "", 'a', .UnterminatedString)
  | .True => (31, 0, "", 'a', .UnterminatedString)
  | .False => (32, 0, "", 'a', .UnterminatedString)
  | .Let => (33, 0, "", 'a', .UnterminatedString)
  | .Const => (34, 0, "", 'a', .UnterminatedString)
  | .If => (35, 0, "", 'a', .UnterminatedString)
  | .Else => (36, 0, "", 'a', .UnterminatedString)
  | .Switch => (37, 0, "", 'a', .UnterminatedString)
  | .Do => (38, 0, "", 'a', .UnterminatedString)
  | .While => (39, 0, "", 'a', .UnterminatedString)
  | .Until => (40, 0, "", 'a', .UnterminatedString)
  | .Loop => (41, 0, "", 'a', .UnterminatedString)
  | .For => (42, 0, "", 'a', .UnterminatedString)
  | .In => (43, 0, "", 'a', .UnterminatedString)
  | .LessThan => (44, 0, "", 'a', .UnterminatedString)
  | .GreaterThan => (45, 0, "", 'a', .UnterminatedString)
  | .LessThanEqualsTo => (46, 0, "", 'a', .UnterminatedString)
  | .GreaterThanEqualsTo => (47, 0, "", 'a', .UnterminatedString)
  | .EqualsTo => (48, 0, "", 'a', .UnterminatedString)
  | .NotEqualsTo => (49, 0, "", 'a', .UnterminatedString)
  | .Bang => (50, 0, "", 'a', .UnterminatedString)
  | .Pipe => (51, 0, "", 'a', .UnterminatedString)
  | .Or => (52, 0, "", 'a', .UnterminatedString)
  | .XOr => (53, 0, "", 'a', .UnterminatedString)
  | .Ampersand => (54, 0, "", 'a', .UnterminatedString)
  | .And => (55, 0, "", 'a', .UnterminatedString)
  | .Fn => (56, 0, "", 'a', .UnterminatedString)
  | .Continue => (57, 0, "", 'a', .UnterminatedString)
  | .Break => (58, 0, "", 'a', .UnterminatedString)
  | .Return => (59, 0, "", 'a', .UnterminatedString)
  | .Throw => (60, 0, "", 'a', .UnterminatedString)
  | .Try => (61, 0, "", 'a', .UnterminatedString)
  | .Catch => (62, 0, "", 'a', .UnterminatedString)
  | .PlusAssign => (63, 0, "", 'a', .UnterminatedString)
  | .MinusAssign => (64, 0, "", 'a', .UnterminatedString)
  | .MultiplyAssign => (65, 0, "", 'a', .UnterminatedString)
  | .DivideAssign => (66, 0, "", 'a', .UnterminatedString)
  | .LeftShiftAssign => (67, 0, "", 'a', .UnterminatedString)
  | .RightShiftAssign => (68, 0, "", 'a', .UnterminatedString)
  | .AndAssign => (69, 0, "", 'a', .UnterminatedString)
  | .OrAssign => (70, 0, "", 'a', .UnterminatedString)
  | .XOrAssign => (71, 0, "", 'a', .UnterminatedString)
  | .ModuloAssign => (72, 0, "", 'a', .UnterminatedString)
  | .PowerOfAssign => (73, 0, "", 'a', .UnterminatedString)
  | .Private => (74, 0, "", 'a', .UnterminatedString)
  | .Import => (75, 0, "", 'a', .UnterminatedString)
  | .Export => (76, 0, "", 'a', .UnterminatedString)
  | .As => (77, 0, "", 'a', .UnterminatedString)
  | .LexError e => (78, 0, "", 'a', e)
  | .Comment s => (79, 0, s, 'a', .UnterminatedString)
  | .Reserved s => (80, 0, s, 'a', .UnterminatedString)
  | .Custom s => (81, 0, s, 'a', .UnterminatedString)
  | .EOF => (82, 0, "", 'a', .UnterminatedString)

/-- Partial inverse of `tokEnc`. -/
def tokDec : Nat × Int × String × Char × LexError → Option Token
  | (0, i, _, _, _) => some (.IntegerConstant i)
  | (1, _, f, _, _) => some (.FloatConstant f)
  | (2, _, s, _, _) => some (.Identifier s)
  | (3, _, _, c, _) => some (.CharConstant c)
  | (4, _, s, _, _) => some (.StringConstant s)
  | (5, _, _, _, _) => some .Null
  | (6, _, _, _, _) => some .LeftBrace
  | (7, _, _, _, _) => some .RightBrace
  | (8, _, _, _, _) => some .LeftParen
  | (9, _, _, _, _) => some .RightParen
  | (10, _, _, _, _) => some .LeftBracket
  | (11, _, _, _, _) => some .RightBracket
  | (12, _, _, _, _) => some .Plus
  | (13, _, _, _, _) => some .UnaryPlus
  | (14, _, _, _, _) => some .Minus
  | (15, _, _, _, _) => some .UnaryMinus
  | (16, _, _, _, _) => some .Multiply
  | (17, _, _, _, _) => some .Divide
  | (18, _, _, _, _) => some .Modulo
  | (19, _, _, _, _) => some .PowerOf
  | (20, _, _, _, _) => some .LeftShift
  | (21, _, _, _, _) => some .RightShift
  | (22, _, _, _, _) => some .SemiColon
  | (23, _, _, _, _) => some .Colon
  | (24, _, _, _, _) => some .DoubleColon
  | (25, _, _, _, _) => some .DoubleArrow
  | (26, _, _, _, _) => some .Underscore
  | (27, _, _, _, _) => some .Comma
  | (28, _, _, _, _) => some .Period
  | (29, _, _, _, _) => some .MapStart
  | (30, _, _, _, _) => some .Equals
  | (31, _, _, _, _) => some .True
  | (32, _, _, _, _) => some .False
  | (33, _, _, _, _) => some .Let
  | (34, _, _, _, _) => some .Const
  | (35, _, _, _, _) => some .If
  | (36, _, _, _, _) => some .Else
  | (37, _, _, _, _) => some .Switch
  | (38, _, _, _, _) => some .Do
  | (39, _, _, _, _) => some .While
  | (40, _, _, _, _) => some .Until
  | (41, _, _, _, _) => some .Loop
  | (42, _, _, _, _) => some .For
  | (43, _, _, _, _) => some .In
  | (44, _, _, _, _) => some .LessThan
  | (45, _, _, _, _) => some .GreaterThan
  | (46, _, _, _, _) => some .LessThanEqualsTo
  | (47, _, _, _, _) => some .GreaterThanEqualsTo
  | (48, _, _, _, _) => some .EqualsTo
  | (49, _, _, _, _) => some .NotEqualsTo
  | (50, _, _, _, _) => some .Bang
  | (51, _, _, _, _) => some .Pipe
  | (52, _, _, _, _) => some .Or
  | (53, _, _, _, _) => some .XOr
  | (54, _, _, _, _) => some .Ampersand
  | (55, _, _, _, _) => some .And
  | (56, _, _, _, _) => some .Fn
  | (57, _, _, _, _) => some .Continue
  | (58, _, _, _, _) => some .Break
  | (59, _, _, _, _) => some .Return
  | (60, _, _, _, _) => some .Throw
  | (61, _, _, _, _) => some .Try
  | (62, _, _, _, _) => some .Catch
  | (63, _, _, _, _) => some .PlusAssign
  | (64, _, _, _, _) => some .MinusAssign
  | (65, _, _, _, _) => some .MultiplyAssign
  | (66, _, _, _, _) => some .DivideAssign
  | (67, _, _, _, _) => some .LeftShiftAssign
  | (68, _, _, _, _) => some .RightShiftAssign
  | (69, _, _, _, _) => some .AndAssign
  | (70, _, _, _, _) => some .OrAssign
  | (71, _, _, _, _) => some .XOrAssign
  | (72, _, _, _, _) => some .ModuloAssign
  | (73, _, _, _, _) => some .PowerOfAssign
  | (74, _, _, _, _) => some .Private
  | (75, _, _, _, _) => some .Import
  | (76, _, _, _, _) => some .Export
  | (77, _, _, _, _) => some .As
  | (78, _, _, _, e) => some (.LexError e)
  | (79, _, s, _, _) => some (.Comment s)
  | (80, _, s, _, _) => some (.Reserved s)
  | (81, _, s, _, _) => some (.Custom s)
  | (82, _, _, _, _) => some .EOF
  | _ => none

theorem tokDec_tokEnc (t : Token) : tokDec (tokEnc t) = some t := by
  cases t <;> rfl

instance : DecidableEq Token := fun a b =>
  if h : tokEnc a = tokEnc b then
    .isTrue (by
      have h2 := congrArg tokDec h
      rw [tokDec_tokEnc, tokDec_tokEnc, Option.some.injEq] at h2
      exact h2)
  else .isFalse (fun e => h (congrArg tokEnc e))

/-- `Token::syntax`: the canonical syntax text of a token. -/
def tokenText : Token → String
  | .IntegerConstant i => toString i
  | .FloatConstant f => f
  | .StringConstant _ => "string"
  | .CharConstant c => String.mk [c]
  | .Null => "null"
  | .Identifier s => s
  | .Reserved s => s
  | .Custom s => s
  | .LexError e => lexErrorText e
  | .Comment s => s
  | .LeftBrace => "\x7b"
  | .RightBrace => "\x7d"
  | .LeftParen => "("
  | .RightParen => ")"
  | .LeftBracket => "["
  | .RightBracket => "]"
  | .Plus => "+"
  | .UnaryPlus => "+"
  | .Minus => "-"
  | .UnaryMinus => "-"
  | .Multiply => "*"
  | .Divide => "/"
  | .SemiColon => ";"
  | .Colon => ":"
  | .DoubleColon => "::"
  | .DoubleArrow => "=>"
  | .Underscore => "_"
  | .Comma => ","
  | .Period => "."
  | .MapStart => "#\x7b"
  | .Equals => "="
  | .True => "true"
  | .False => "false"
  | .Let => "let"
  | .Const => "const"
  | .If => "if"
  | .Else => "else"
  | .Switch => "switch"
  | .Do => "do"
  | .While => "while"
  | .Until => "until"
  | .Loop => "loop"
  | .For => "for"
  | .In => "in"
  | .LessThan => "<"
  | .GreaterThan => ">"
  | .Bang => "!"
  | .LessThanEqualsTo => "<="
  | .GreaterThanEqualsTo => ">="
  | .EqualsTo => "=="
  | .NotEqualsTo => "!="
  | .Pipe => "|"
  | .Or => "||"
  | .Ampersand => "&"
  | .And => "&&"
  | .Continue => "continue"
  | .Break => "break"
  | .Return => "return"
  | .Throw => "throw"
  | .Try => "try"
  | .Catch => "catch"
  | .PlusAssign => "+="
  | .MinusAssign => "-="
  | .MultiplyAssign => "*="
  | .DivideAssign => "/="
  | .LeftShiftAssign => "<<="
  | .RightShiftAssign => ">>="
  | .AndAssign => "&="
  | .OrAssign => "|="
  | .XOrAssign => "^="
  | .LeftShift => "<<"
  | .RightShift => ">>"
  | .XOr => "^"
  | .Modulo => "%"
  | .ModuloAssign => "%="
  | .PowerOf => "**"
  | .PowerOfAssign => "**="
  | .Fn => "fn"
  | .Private => "private"
  | .Import => "import"
  | .Export => "export"
  | .As => "as"
  | .EOF => "\x7bEOF\x7d"

/-- Modelled from the spec: the engine's keyword-function names
(`KEYWORD_PRINT`, `KEYWORD_DEBUG`, `KEYWORD_TYPE_OF`, `KEYWORD_EVAL`,
`KEYWORD_FN_PTR`, `KEYWORD_FN_PTR_CALL`, `KEYWORD_FN_PTR_CURRY`,
`KEYWORD_THIS`, `KEYWORD_IS_DEF_VAR`, `KEYWORD_IS_DEF_FN`) are string
constants in the engine module, outside the sources in scope; the spec's
interface section names `print` as one such built-in.  They only matter
here through `Token::lookup_from_syntax` classifying them as reserved. -/
def keywordFunctionNames : List String :=
  ["print", "debug", "type_of", "eval", "Fn", "call", "curry", "this",
    "is_def_var", "is_def_fn"]

/-- The fixed list of reserved symbols and keywords recognized by
`Token::lookup_from_syntax` (its long `|` pattern). -/
def reservedNames : List String :=
  ["===", "!==", "->", "<-", ":=", "~", "::<", "(*", "*)", "#", "public",
    "new", "use", "module", "package", "var", "static", "begin", "end",
    "shared", "with", "each", "then", "goto", "unless", "exit", "match",
    "case", "default", "void", "nil", "spawn", "thread", "go", "sync",
    "async", "await", "yield"]

/-- `Token::lookup_from_syntax`: reverse lookup of a token from a piece of
syntax text. -/
def lookupFromText (s : String) : Option Token :=
  match s with
  | "\x7b" => some .LeftBrace
  | "\x7d" => some .RightBrace
  | "(" => some .LeftParen
  | ")" => some .RightParen
  | "[" => some .LeftBracket
  | "]" => some .RightBracket
  | "+" => some .Plus
  | "-" => some .Minus
  | "*" => some .Multiply
  | "/" => some .Divide
  | ";" => some .SemiColon
  | ":" => some .Colon
  | "::" => some .DoubleColon
  | "=>" => some .DoubleArrow
  | "_" => some .Underscore
  | "," => some .Comma
  | "." => some .Period
  | "#\x7b" => some .MapStart
  | "=" => some .Equals
  | "null" => some .Null
  | "true" => some .True
  | "false" => some .False
  | "let" => some .Let
  | "const" => some .Const
  | "if" => some .If
  | "else" => some .Else
  | "switch" => some .Switch
  | "do" => some .Do
  | "while" => some .While
  | "until" => some .Until
  | "loop" => some .Loop
  | "for" => some .For
  | "in" => some .In
  | "<" => some .LessThan
  | ">" => some .GreaterThan
  | "!" => some .Bang
  | "<=" => some .LessThanEqualsTo
  | ">=" => some .GreaterThanEqualsTo
  | "==" => some .EqualsTo
  | "!=" => some .NotEqualsTo
  | "|" => some .Pipe
  | "||" => some .Or
  | "&" => some .Ampersand
  | "&&" => some .And
  | "continue" => some .Continue
  | "break" => some .Break
  | "return" => some .Return
  | "throw" => some .Throw
  | "try" => some .Try
  | "catch" => some .Catch
  | "+=" => some .PlusAssign
  | "-=" => some .MinusAssign
  | "*=" => some .MultiplyAssign
  | "/=" => some .DivideAssign
  | "<<=" => some .LeftShiftAssign
  | ">>=" => some .RightShiftAssign
  | "&=" => some .AndAssign
  | "|=" => some .OrAssign
  | "^=" => some .XOrAssign
  | "<<" => some .LeftShift
  | ">>" => some .RightShift
  | "^" => some .XOr
  | "%" => some .Modulo
  | "%=" => some .ModuloAssign
  | "**" => some .PowerOf
  | "**=" => some .PowerOfAssign
  | "fn" => some .Fn
  | "private" => some .Private
  | "import" => some .Import
  | "export" => some .Export
  | "as" => some .As
  | _ =>
    if reservedNames.contains s || keywordFunctionNames.contains s then
      some (.Reserved s)
    else none

/-- `Token::is_next_unary`: after these tokens, the next `+`/`-` operator
is unary. -/
def isNextUnary : Token → Bool
  | .LexError _ => true
  | .LeftBrace => true
  | .LeftParen => true
  | .LeftBracket => true
  | .Plus => true
  | .UnaryPlus => true
  | .Minus => true
  | .UnaryMinus => true
  | .Multiply => true
  | .Divide => true
  | .Comma => true
  | .Period => true
  | .Equals => true
  | .LessThan => true
  | .GreaterThan => true
  | .Bang => true
  | .LessThanEqualsTo => true
  | .GreaterThanEqualsTo => true
  | .EqualsTo => true
  | .NotEqualsTo => true
  | .Pipe => true
  | .Or => true
  | .Ampersand => true
  | .And => true
  | .If => true
  | .Do => true
  | .While => true
  | .Until => true
  | .PlusAssign => true
  | .MinusAssign => true
  | .MultiplyAssign => true
  | .DivideAssign => true
  | .LeftShiftAssign => true
  | .RightShiftAssign => true
  | .PowerOf => true
  | .PowerOfAssign => true
  | .AndAssign => true
  | .OrAssign => true
  | .XOrAssign => true
  | .LeftShift => true
  | .RightShift => true
  | .XOr => true
  | .Modulo => true
  | .ModuloAssign => true
  | .Return => true
  | .Throw => true
  | .In => true
  | _ => false

/-- `Token::is_symbol`: standard punctuation / operator tokens. -/
def isSymbolTok : Token → Bool
  | .LeftBrace => true
  | .RightBrace => true
  | .LeftParen => true
  | .RightParen => true
  | .LeftBracket => true
  | .RightBracket => true
  | .Plus => true
  | .UnaryPlus => true
  | .Minus => true
  | .UnaryMinus => true
  | .Multiply => true
  | .Divide => true
  | .Modulo => true
  | .PowerOf => true
  | .LeftShift => true
  | .RightShift => true
  | .SemiColon => true
  | .Colon => true
  | .DoubleColon => true
  | .Comma => true
  | .Period => true
  | .MapStart => true
  | .Equals => true
  | .LessThan => true
  | .GreaterThan => true
  | .LessThanEqualsTo => true
  | .GreaterThanEqualsTo => true
  | .EqualsTo => true
  | .NotEqualsTo => true
  | .Bang => true
  | .Pipe => true
  | .Or => true
  | .XOr => true
  | .Ampersand => true
  | .And => true
  | .PlusAssign => true
  | .MinusAssign => true
  | .MultiplyAssign => true
  | .DivideAssign => true
  | .LeftShiftAssign => true
  | .RightShiftAssign => true
  | .AndAssign => true
  | .OrAssign => true
  | .XOrAssign => true
  | .ModuloAssign => true
  | .PowerOfAssign => true
  | _ => false

/-- `Token::is_keyword`: the active standard keywords (with the default
feature set, `fn`, `private`, `import`, `export`, `as` are active). -/
def isKeywordTok : Token → Bool
  | .Fn => true
  | .Private => true
  | .Import => true
  | .Export => true
  | .As => true
  | .Null => true
  | .True => true
  | .False => true
  | .Let => true
  | .Const => true
  | .If => true
  | .Else => true
  | .Do => true
  | .While => true
  | .Until => true
  | .Loop => true
  | .For => true
  | .In => true
  | .Continue => true
  | .Break => true
  | .Return => true
  | .Throw => true
  | .Try => true
  | .Catch => true
  | _ => false

/-- `Token::is_reserved`. -/
def isReservedTok : Token → Bool
  | .Reserved _ => true
  | _ => false

/-- Discriminator for the `Identifier` variant (used to phrase match-arm
side conditions of the token post-processing decidably). -/
def isIdentifierTok : Token → Bool
  | .Identifier _ => true
  | _ => false

/-- The token variants whose canonical syntax is a fixed piece of
punctuation / operator / keyword text: everything except the
literal-valued variants (`IntegerConstant`, `FloatConstant`,
`CharConstant`, `StringConstant`, `Identifier`, `LexError`, `Comment`,
`Reserved`, `Custom`) and the end-of-stream marker `EOF`. -/
def nonLiteralTok : Token → Bool
  | .IntegerConstant _ => false
  | .FloatConstant _ => false
  | .Identifier _ => false
  | .CharConstant _ => false
  | .StringConstant _ => false
  | .LexError _ => false
  | .Comment _ => false
  | .Reserved _ => false
  | .Custom _ => false
  | .EOF => false
  | _ => true

/-- `is_numeric_digit`: `'0'..='9'`. -/
def isNumericDigit (c : Char) : Bool := '0' ≤ c && c ≤ '9'

/-- `is_hex_digit`: `'a'..='f' | 'A'..='F' | '0'..='9'`. -/
def isHexDigit (c : Char) : Bool :=
  ('a' ≤ c && c ≤ 'f') || ('A' ≤ c && c ≤ 'F') || ('0' ≤ c && c ≤ '9')

/-- `is_id_first_alphabetic` (ASCII build): `char::is_ascii_alphabetic`. -/
def isIdFirstAlphabetic (c : Char) : Bool :=
  ('A' ≤ c && c ≤ 'Z') || ('a' ≤ c && c ≤ 'z')

/-- `char::is_ascii_alphanumeric`. -/
def isAsciiAlphanumeric (c : Char) : Bool :=
  isIdFirstAlphabetic c || ('0' ≤ c && c ≤ '9')

/-- `is_id_continue` (ASCII build): alphanumeric or underscore. -/
def isIdContinue (c : Char) : Bool := isAsciiAlphanumeric c || c == '_'

/-- `char::is_whitespace` (the Unicode White_Space property, listed
explicitly). -/
def rustIsWhitespace (c : Char) : Bool :=
  c == ' ' || c == '\t' || c == '\n' || c == '\r' ||
  c.toNat == 0x0b || c.toNat == 0x0c || c.toNat == 0x85 || c.toNat == 0xa0 ||
  c.toNat == 0x1680 || (0x2000 ≤ c.toNat && c.toNat ≤ 0x200a) ||
  c.toNat == 0x2028 || c.toNat == 0x2029 || c.toNat == 0x202f ||
  c.toNat == 0x205f || c.toNat == 0x3000

/-- The accumulator loop of `is_valid_identifier`, tracking whether an
alphabetic character has been seen. -/
def isValidIdentifierAux (firstAlphabetic : Bool) : List Char → Bool
  | [] => firstAlphabetic
  | ch :: rest =>
    if ch == '_' then isValidIdentifierAux firstAlphabetic rest
    else if isIdFirstAlphabetic ch then isValidIdentifierAux true rest
    else if !firstAlphabetic then false
    else if isAsciiAlphanumeric ch then isValidIdentifierAux firstAlphabetic rest
    else false

/-- `is_valid_identifier`: at least one alphabetic character, and every
character an underscore or (after the first alphabetic) alphanumeric. -/
def isValidIdentifier (l : List Char) : Bool := isValidIdentifierAux false l

/-- `is_valid_identifier` on a `String`. -/
def isValidIdentifierStr (s : String) : Bool := isValidIdentifier s.data

/-- `is_doc_comment`: an un-trimmed comment text starting with exactly
`///` (not `////`) or exactly `/**` (not `/***`). -/
def isDocComment (s : List Char) : Bool :=
  (['/', '/', '/'].isPrefixOf s && !(['/', '/', '/', '/'].isPrefixOf s)) ||
  (['/', '*', '*'].isPrefixOf s && !(['/', '*', '*', '*'].isPrefixOf s))

/-- `struct TokenizeState`. -/
structure TokenizeState where
  max_string_size : Option Nat
  non_unary : Bool
  comment_level : Nat
  end_with_none : Bool
  include_comments : Bool
  disable_doc_comments : Bool
deriving DecidableEq

/-- The tokenizer state created by `Engine::lex_raw` for a default
engine (no string-size limit, doc-comments enabled). -/
def defaultState : TokenizeState :=
  ⟨none, false, 0, false, false, false⟩

/-- `char::to_digit(16)` for one character (digit values over the code
point, written with the ASCII code points 48-57, 97-102 and 65-70). -/
def charToDigit16 (c : Char) : Option Nat :=
  let n := c.toNat
  if 48 ≤ n && n ≤ 57 then some (n - 48)
  else if 97 ≤ n && n ≤ 102 then some (n - 87)
  else if 65 ≤ n && n ≤ 70 then some (n - 55)
  else none

/-- Validity of a code point for `char::from_u32`. -/
def isValidCharNat (n : Nat) : Bool :=
  n < 0xd800 || (0xe000 ≤ n && n < 0x110000)

/-- Total UTF-8 byte length of a character list (Rust `str::len`). -/
def utf8Len (l : List Char) : Nat := l.foldl (fun n c => n + c.utf8Size) 0

/-- The fixed-length hex-digit reader inside the `\x`/`\u`/`\U` escape
arm of `parse_string_literal`: consumes `count` characters, extending
`seq` and the accumulated code-point value; a missing character reports
the sequence so far at the current position, a non-hex character is
appended to the sequence and reported at the advanced position. -/
def readEscDigits (seq : List Char) (val : Nat) :
    Nat → Position → List Char →
    Except (LexError × Position) (Nat × List Char) × Position × List Char
  | 0, pos, stream => (.ok (val, seq), pos, stream)
  | count + 1, pos, stream =>
    match stream with
    | [] => (.error (.MalformedEscapeSequence (String.mk seq), pos), pos, [])
    | d :: rest =>
      let seq2 := seq ++ [d]
      let pos2 := advanceCore pos
      match charToDigit16 d with
      | some v => readEscDigits seq2 (val * 16 + v) count pos2 rest
      | none => (.error (.MalformedEscapeSequence (String.mk seq2), pos2), pos2, rest)

/-- The `if let Some(max) = state.max_string_size { if len > max }`
check of `parse_string_literal`, as a predicate. -/
def maxExceeded (maxLen : Option Nat) (n : Nat) : Bool :=
  match maxLen with
  | some m => decide (n > m)
  | none => false

/-- The scanning loop of `parse_string_literal`, fuelled (`none` = out of
fuel; fuel of at least the stream length plus one always suffices).
`start` is the position captured on entry, `result` the accumulated
characters and `escape` the pending escape-sequence buffer. -/
def pslLoop (maxLen : Option Nat) (enc : Char) (start : Position) :
    Nat → List Char → Position → List Char → List Char →
    Option (Except (LexError × Position) (List Char) × Position × List Char)
  | 0, _, _, _, _ => none
  | _ + 1, [], pos, _, _ => some (.error (.UnterminatedString, start), pos, [])
  | fuel + 1, ch :: rest, pos, result, escape =>
    let pos1 := advanceCore pos
    if maxExceeded maxLen result.length then
      some (.error (.StringTooLong (maxLen.getD 0), pos1), pos1, rest)
    else if ch == '\\' && escape.isEmpty then
      pslLoop maxLen enc start fuel rest pos1 result ['\\']
    else if ch == '\\' && !escape.isEmpty then
      pslLoop maxLen enc start fuel rest pos1 (result ++ ['\\']) []
    else if ch == 't' && !escape.isEmpty then
      pslLoop maxLen enc start fuel rest pos1 (result ++ ['\t']) []
    else if ch == 'n' && !escape.isEmpty then
      pslLoop maxLen enc start fuel rest pos1 (result ++ ['\n']) []
    else if ch == 'r' && !escape.isEmpty then
      pslLoop maxLen enc start fuel rest pos1 (result ++ ['\r']) []
    else if (ch == 'x' || ch == 'u' || ch == 'U') && !escape.isEmpty then
      let len := if ch == 'x' then 2 else if ch == 'u' then 4 else 8
      match readEscDigits (escape ++ [ch]) 0 len pos1 rest with
      | (.error e, pos2, rest2) => some (.error e, pos2, rest2)
      | (.ok (v, seq2), pos2, rest2) =>
        if isValidCharNat v then
          pslLoop maxLen enc start fuel rest2 pos2 (result ++ [Char.ofNat v]) []
        else
          some (.error (.MalformedEscapeSequence (String.mk seq2), pos2), pos2, rest2)
    else if ch == enc && !escape.isEmpty then
      pslLoop maxLen enc start fuel rest pos1 (result ++ [ch]) []
    else if ch == enc && escape.isEmpty then
      if maxExceeded maxLen (utf8Len result) then
        some (.error (.StringTooLong (maxLen.getD 0), pos1), pos1, rest)
      else some (.ok result, pos1, rest)
    else if !escape.isEmpty then
      some (.error (.MalformedEscapeSequence (String.mk (escape ++ [ch])), pos1), pos1, rest)
    else if ch == '\n' then
      some (.error (.UnterminatedString, start), rewindCore pos1, rest)
    else
      pslLoop maxLen enc start fuel rest pos1 (result ++ [ch]) []

/-- `parse_string_literal`: scan a string literal body wrapped by
`enc`, starting with empty accumulators; the literal-start position is
the entry value of `pos`. -/
def parseStringLiteral (state : TokenizeState) (enc : Char) (pos : Position)
    (stream : List Char) :
    Option (Except (LexError × Position) (List Char) × Position × List Char) :=
  pslLoop state.max_string_size enc pos (stream.length + 1) stream pos [] []

/-- `scan_block_comment`: consume a (nested) block comment; returns the
final nesting level, position, optional accumulated comment text and the
remaining stream. -/
def scanBlockComment (level : Nat) (pos : Position) (comment : Option (List Char)) :
    List Char → Nat × Position × Option (List Char) × List Char
  | [] => (level, pos, comment, [])
  | '/' :: '*' :: rest =>
    scanBlockComment (level + 1) (advanceCore (advanceCore pos))
      (comment.map (· ++ ['/', '*'])) rest
  | '*' :: '/' :: rest =>
    let pos2 := advanceCore (advanceCore pos)
    let comment2 := comment.map (· ++ ['*', '/'])
    if level - 1 == 0 then (level - 1, pos2, comment2, rest)
    else scanBlockComment (level - 1) pos2 comment2 rest
  | '\n' :: rest =>
    let pos2 := newLineCore (advanceCore pos)
    let comment2 := comment.map (· ++ ['\n'])
    if level == 0 then (level, pos2, comment2, rest)
    else scanBlockComment level pos2 comment2 rest
  | c :: rest =>
    let pos2 := advanceCore pos
    let comment2 := comment.map (· ++ [c])
    if level == 0 then (level, pos2, comment2, rest)
    else scanBlockComment level pos2 comment2 rest

/-- The `//`-comment consumption loop inside `get_next_token_inner`:
consume up to and including the next newline, pushing characters (except
the newline) onto the optional comment text. -/
def scanLineComment (comment : Option (List Char)) (pos : Position) :
    List Char → Option (List Char) × Position × List Char
  | [] => (comment, pos, [])
  | c :: rest =>
    if c == '\n' then (comment, newLineCore pos, rest)
    else scanLineComment (comment.map (· ++ [c])) (advanceCore pos) rest

/-- The identifier-consumption loop of `get_identifier`: consume
`is_id_continue` characters. -/
def identLoop (acc : List Char) (pos : Position) :
    List Char → List Char × Position × List Char
  | [] => (acc, pos, [])
  | c :: rest =>
    if isIdContinue c then identLoop (acc ++ [c]) (advanceCore pos) rest
    else (acc, pos, c :: rest)

/-- `get_identifier`: read an identifier starting with `c`, then classify
it via `Token::lookup_from_syntax` and `is_valid_identifier`. -/
def getIdentifier (pos : Position) (c : Char) (stream : List Char) :
    Token × Position × List Char :=
  let (result, pos2, rest2) := identLoop [c] pos stream
  let valid := isValidIdentifier result
  let identifier := String.mk result
  match lookupFromText identifier with
  | some t => (t, pos2, rest2)
  | none =>
    if !valid then (.LexError (.MalformedIdentifier identifier), pos2, rest2)
    else (.Identifier identifier, pos2, rest2)

/-- `char::to_digit(radix)`. -/
def toDigit (c : Char) (radix : Nat) : Option Nat :=
  let v :=
    if '0' ≤ c && c ≤ '9' then some (c.toNat - '0'.toNat)
    else if 'a' ≤ c && c ≤ 'z' then some (c.toNat - 'a'.toNat + 10)
    else if 'A' ≤ c && c ≤ 'Z' then some (c.toNat - 'A'.toNat + 10)
    else none
  match v with
  | some d => if d < radix then some d else none
  | none => none

/-- The `i64` range bounds (`INT` is `i64` in the default build). -/
def i64Min : Int := -9223372036854775808

/-- The `i64` maximum. -/
def i64Max : Int := 9223372036854775807

/-- `i64::from_str_radix`: optional sign, then a nonempty run of digits
of the given radix, with the `i64` range check (overflow is an error). -/
def intFromStrRadix (s : List Char) (radix : Nat) : Option Int :=
  match s with
  | [] => none
  | c :: rest =>
    let (neg, digits) :=
      if c == '+' then (false, rest)
      else if c == '-' then (true, rest)
      else (false, c :: rest)
    if digits.isEmpty then none
    else
      match digits.foldl
          (fun acc d =>
            match acc, toDigit d radix with
            | some a, some v => some (a * radix + v)
            | _, _ => none)
          (some 0) with
      | none => none
      | some mag =>
        let val : Int := if neg then -(mag : Int) else (mag : Int)
        if i64Min ≤ val && val ≤ i64Max then some val else none

/-- `i64::from_str` (decimal). -/
def intFromStr (s : List Char) : Option Int := intFromStrRadix s 10

/-- Acceptance of the exponent suffix of the `f64::from_str` grammar. -/
def floatExpAccepts (s : List Char) : Bool :=
  match s with
  | [] => true
  | e :: rest =>
    if e == 'e' || e == 'E' then
      let digits :=
        match rest with
        | c :: rest2 => if c == '+' || c == '-' then rest2 else rest
        | [] => []
      !digits.isEmpty && digits.all isNumericDigit
    else false

/-- Acceptance of the `f64::from_str` grammar (number forms; the
`inf`/`infinity`/`nan` forms are included for completeness, though no
tokenizer-produced text matches them). -/
def floatAccepts (s : List Char) : Bool :=
  let lower := s.map Char.toLower
  if lower == ['i', 'n', 'f'] || lower == ['i', 'n', 'f', 'i', 'n', 'i', 't', 'y'] ||
      lower == ['n', 'a', 'n'] then true
  else
    let body :=
      match s with
      | c :: rest => if c == '+' || c == '-' then rest else s
      | [] => []
    let intPart := body.takeWhile isNumericDigit
    let afterInt := body.dropWhile isNumericDigit
    match afterInt with
    | '.' :: rest2 =>
      let frac := rest2.takeWhile isNumericDigit
      let afterFrac := rest2.dropWhile isNumericDigit
      (!intPart.isEmpty || !frac.isEmpty) && floatExpAccepts afterFrac
    | _ => !intPart.isEmpty && floatExpAccepts afterInt

/-- `FloatWrapper::from_str` (an `f64` parse): the constant is modelled
by its accepted text. -/
def floatFromStr (s : List Char) : Option String :=
  if floatAccepts s then some (String.mk s) else none

/-- The digit-consumption loop of the numeric-literal arm of
`get_next_token_inner`.  `c0` is the first character of the literal,
`hexd` records whether the mutable `valid` function is currently
`is_hex_digit` (`true`) or `is_numeric_digit` (`false`), `radix` the
selected radix base, `result` the accumulated literal text; the loop is fuelled (any fuel of
at least the stream length plus one behaves identically, since every
iteration consumes at least one character).  Returns the final text,
radix, position and remaining stream. -/
def numberLoop (c0 : Char) :
    Nat → Bool → Option Nat → List Char → Position → List Char →
    List Char × Option Nat × Position × List Char
  | 0, _, radix, result, pos, stream => (result, radix, pos, stream)
  | _ + 1, _, radix, result, pos, [] => (result, radix, pos, [])
  | fuel + 1, hexd, radix, result, pos, ch :: rest =>
    if (if hexd then isHexDigit ch else isNumericDigit ch) || ch == '_' then
      numberLoop c0 fuel hexd radix (result ++ [ch]) (advanceCore pos) rest
    else if ch == '.' then
      match rest with
      | d :: rest2 =>
        if isNumericDigit d then
          numberLoop c0 fuel hexd radix (result ++ ['.']) (advanceCore pos) (d :: rest2)
        else if d == '_' then (result, radix, pos, '.' :: d :: rest2)
        else if d == '.' then (result, radix, pos, '.' :: d :: rest2)
        else if !isIdFirstAlphabetic d then
          numberLoop c0 fuel hexd radix (result ++ ['.', '0']) (advanceCore pos) (d :: rest2)
        else (result, radix, pos, '.' :: d :: rest2)
      | [] =>
        -- the loop pushes `.0`, advances and continues; the next
        -- iteration sees the exhausted stream and stops
        (result ++ ['.', '0'], radix, advanceCore pos, [])
    else if ch == 'e' then
      match rest with
      | d :: rest2 =>
        if isNumericDigit d then
          numberLoop c0 fuel hexd radix (result ++ ['e']) (advanceCore pos) (d :: rest2)
        else if d == '+' || d == '-' then
          numberLoop c0 fuel hexd radix (result ++ ['e', d])
            (advanceCore (advanceCore pos)) rest2
        else (result, radix, pos, 'e' :: d :: rest2)
      | [] => (result, radix, pos, ['e'])
    else if (ch == 'x' || ch == 'X' || ch == 'o' || ch == 'O' || ch == 'b' || ch == 'B')
        && c0 == '0' && decide (result.length ≤ 1) then
      let hexd2 := ch == 'x' || ch == 'X'
      let radix2 := if ch == 'x' || ch == 'X' then 16 else if ch == 'o' || ch == 'O' then 8 else 2
      numberLoop c0 fuel hexd2 (some radix2) (result ++ [ch]) (advanceCore pos) rest
    else (result, radix, pos, ch :: rest)

/-- The numeric-literal arm of `get_next_token_inner`: run the digit
loop on first character `c0`, fold in a pending unary minus, strip
separators and parse (radix form via `from_str_radix`, otherwise integer
then float), falling back to a `MalformedNumber` error token. -/
def numberToken (negated : Bool) (c0 : Char) (pos : Position)
    (stream : List Char) : Token × Position × List Char :=
  let (r0, radix, pos2, rest2) := numberLoop c0 (stream.length + 1) false none [c0] pos stream
  let result := if negated then '-' :: r0 else r0
  match radix with
  | some r =>
    let out := (result.drop 2).filter (· != '_')
    (match intFromStrRadix out r with
      | some i => Token.IntegerConstant i
      | none => Token.LexError (.MalformedNumber (String.mk result)),
      pos2, rest2)
  | none =>
    let out := result.filter (· != '_')
    (match intFromStr out with
      | some i => Token.IntegerConstant i
      | none =>
        match floatFromStr out with
        | some f => Token.FloatConstant f
        | none => Token.LexError (.MalformedNumber (String.mk result)),
      pos2, rest2)

instance {e a : Type} [DecidableEq e] [DecidableEq a] : DecidableEq (Except e a) :=
  fun x y =>
    match x, y with
    | .ok u, .ok v =>
      match decEq u v with
      | .isTrue h => .isTrue (h ▸ rfl)
      | .isFalse h => .isFalse (fun q => h (Except.ok.inj q))
    | .error u, .error v =>
      match decEq u v with
      | .isTrue h => .isTrue (h ▸ rfl)
      | .isFalse h => .isFalse (fun q => h (Except.error.inj q))
    | .ok _, .error _ => .isFalse (fun q => Except.noConfusion q)
    | .error _, .ok _ => .isFalse (fun q => Except.noConfusion q)

/-- The result type of one tokenizer step: an optional token-position
pair (absent only at end of input with `end_with_none` set), the updated
state, position and remaining stream. -/
abbrev StepResult :=
  Except Stuck (Option (Token × Position) × TokenizeState × Position × List Char)

/-- The main dispatch loop of `get_next_token_inner` (the
`while let Some(c) = stream.get_next()` loop), fuelled; `negated`
is the local flag recording a pending folded unary minus.  Every
iteration consumes at least one character, so any fuel of at least the
stream length plus one never runs out (`Stuck.noFuel`). -/
def mainLoop : Nat → Bool → TokenizeState → Position → List Char → StepResult
  | 0, _, _, _, _ => .error .noFuel
  | _ + 1, _, state, pos, [] =>
    let pos1 := advanceCore pos
    if state.end_with_none then .ok (none, state, pos1, [])
    else .ok (some (.EOF, pos1), state, pos1, [])
  | fuel + 1, negated, state, pos, c :: rest =>
    let pos1 := advanceCore pos
    let startPos := pos1
    let peek := rest.head?.getD '\x00'
    if c == '\n' then mainLoop fuel negated state (newLineCore pos1) rest
    else if isNumericDigit c then
      let (tok, pos2, rest2) := numberToken negated c pos1 rest
      .ok (some (tok, startPos), state, pos2, rest2)
    else if isIdFirstAlphabetic c || c == '_' then
      let (tok, pos2, rest2) := getIdentifier pos1 c rest
      .ok (some (tok, startPos), state, pos2, rest2)
    else if c == '"' then
      match parseStringLiteral state '"' pos1 rest with
      | none => .error .noFuel
      | some (.error (e, epos), pos2, rest2) =>
        .ok (some (.LexError e, epos), state, pos2, rest2)
      | some (.ok out, pos2, rest2) =>
        .ok (some (.StringConstant (String.mk out), startPos), state, pos2, rest2)
    else if c == '\'' then
      if peek == '\'' then
        .ok (some (.LexError (.MalformedChar ""), startPos), state, pos1, rest)
      else
        match parseStringLiteral state '\'' pos1 rest with
        | none => .error .noFuel
        | some (.error (e, epos), pos2, rest2) =>
          .ok (some (.LexError e, epos), state, pos2, rest2)
        | some (.ok [], _, _) =>
          -- `result.chars().next().unwrap()` on an empty string
          .error .panicked
        | some (.ok [c1], pos2, rest2) =>
          .ok (some (.CharConstant c1, startPos), state, pos2, rest2)
        | some (.ok (c1 :: c2 :: cs), pos2, rest2) =>
          .ok (some (.LexError (.MalformedChar (String.mk (c1 :: c2 :: cs))), startPos),
            state, pos2, rest2)
    else if c == '\x7b' then .ok (some (.LeftBrace, startPos), state, pos1, rest)
    else if c == '\x7d' then .ok (some (.RightBrace, startPos), state, pos1, rest)
    else if c == '(' then
      if peek == '*' then
        .ok (some (.Reserved "(*", startPos), state, advanceCore pos1, rest.tail)
      else .ok (some (.LeftParen, startPos), state, pos1, rest)
    else if c == ')' then .ok (some (.RightParen, startPos), state, pos1, rest)
    else if c == '[' then .ok (some (.LeftBracket, startPos), state, pos1, rest)
    else if c == ']' then .ok (some (.RightBracket, startPos), state, pos1, rest)
    else if c == '#' then
      if peek == '\x7b' then
        .ok (some (.MapStart, startPos), state, advanceCore pos1, rest.tail)
      else .ok (some (.Reserved "#", startPos), state, pos1, rest)
    else if c == '+' then
      if peek == '=' then
        .ok (some (.PlusAssign, startPos), state, advanceCore pos1, rest.tail)
      else if peek == '+' then
        .ok (some (.Reserved "++", startPos), state, advanceCore pos1, rest.tail)
      else if !state.non_unary then .ok (some (.UnaryPlus, startPos), state, pos1, rest)
      else .ok (some (.Plus, startPos), state, pos1, rest)
    else if c == '-' then
      if isNumericDigit peek && !state.non_unary then
        -- fold the unary minus into the upcoming numeric literal
        mainLoop fuel true state pos1 rest
      else if isNumericDigit peek then .ok (some (.Minus, startPos), state, pos1, rest)
      else if peek == '=' then
        .ok (some (.MinusAssign, startPos), state, advanceCore pos1, rest.tail)
      else if peek == '>' then
        .ok (some (.Reserved "->", startPos), state, advanceCore pos1, rest.tail)
      else if peek == '-' then
        .ok (some (.Reserved "--", startPos), state, advanceCore pos1, rest.tail)
      else if !state.non_unary then .ok (some (.UnaryMinus, startPos), state, pos1, rest)
      else .ok (some (.Minus, startPos), state, pos1, rest)
    else if c == '*' then
      if peek == ')' then
        .ok (some (.Reserved "*)", startPos), state, advanceCore pos1, rest.tail)
      else if peek == '=' then
        .ok (some (.MultiplyAssign, startPos), state, advanceCore pos1, rest.tail)
      else if peek == '*' then
        let pos2 := advanceCore pos1
        let rest2 := rest.tail
        if rest2.head? == some '=' then
          .ok (some (.PowerOfAssign, startPos), state, advanceCore pos2, rest2.tail)
        else .ok (some (.PowerOf, startPos), state, pos2, rest2)
      else .ok (some (.Multiply, startPos), state, pos1, rest)
    else if c == '/' then
      if peek == '/' then
        let pos2 := advanceCore pos1
        let rest2 := rest.tail
        let (comment0, pos3, rest3) :=
          match rest2.head? with
          | some '/' =>
            if !state.disable_doc_comments then
              let pos3 := advanceCore pos2
              let rest3 := rest2.tail
              match rest3.head? with
              | some '/' => ((none : Option (List Char)), pos3, rest3)
              | _ => (some ['/', '/', '/'], pos3, rest3)
            else if state.include_comments then (some ['/', '/'], pos2, rest2)
            else (none, pos2, rest2)
          | _ =>
            if state.include_comments then (some ['/', '/'], pos2, rest2)
            else (none, pos2, rest2)
        let (comment1, pos4, rest4) := scanLineComment comment0 pos3 rest3
        match comment1 with
        | some cs => .ok (some (.Comment (String.mk cs), startPos), state, pos4, rest4)
        | none => mainLoop fuel negated state pos4 rest4
      else if peek == '*' then
        let pos2 := advanceCore pos1
        let rest2 := rest.tail
        let (comment0, pos3, rest3) :=
          match rest2.head? with
          | some '*' =>
            if !state.disable_doc_comments then
              let pos3 := advanceCore pos2
              let rest3 := rest2.tail
              match rest3.head? with
              | some '*' => ((none : Option (List Char)), pos3, rest3)
              | _ => (some ['/', '*', '*'], pos3, rest3)
            else if state.include_comments then (some ['/', '*'], pos2, rest2)
            else (none, pos2, rest2)
          | _ =>
            if state.include_comments then (some ['/', '*'], pos2, rest2)
            else (none, pos2, rest2)
        let (lvl, pos4, comment1, rest4) := scanBlockComment 1 pos3 comment0 rest3
        let state2 := { state with comment_level := lvl }
        match comment1 with
        | some cs => .ok (some (.Comment (String.mk cs), startPos), state2, pos4, rest4)
        | none => mainLoop fuel negated state2 pos4 rest4
      else if peek == '=' then
        .ok (some (.DivideAssign, startPos), state, advanceCore pos1, rest.tail)
      else .ok (some (.Divide, startPos), state, pos1, rest)
    else if c == ';' then .ok (some (.SemiColon, startPos), state, pos1, rest)
    else if c == ',' then .ok (some (.Comma, startPos), state, pos1, rest)
    else if c == '.' then
      if peek == '.' then
        let pos2 := advanceCore pos1
        let rest2 := rest.tail
        if rest2.head? == some '.' then
          .ok (some (.Reserved "...", startPos), state, advanceCore pos2, rest2.tail)
        else .ok (some (.Reserved "..", startPos), state, pos2, rest2)
      else .ok (some (.Period, startPos), state, pos1, rest)
    else if c == '=' then
      if peek == '=' then
        let pos2 := advanceCore pos1
        let rest2 := rest.tail
        if rest2.head? == some '=' then
          .ok (some (.Reserved "===", startPos), state, advanceCore pos2, rest2.tail)
        else .ok (some (.EqualsTo, startPos), state, pos2, rest2)
      else if peek == '>' then
        .ok (some (.DoubleArrow, startPos), state, advanceCore pos1, rest.tail)
      else .ok (some (.Equals, startPos), state, pos1, rest)
    else if c == ':' then
      if peek == ':' then
        let pos2 := advanceCore pos1
        let rest2 := rest.tail
        if rest2.head? == some '<' then
          .ok (some (.Reserved "::<", startPos), state, advanceCore pos2, rest2.tail)
        else .ok (some (.DoubleColon, startPos), state, pos2, rest2)
      else if peek == '=' then
        .ok (some (.Reserved ":=", startPos), state, advanceCore pos1, rest.tail)
      else .ok (some (.Colon, startPos), state, pos1, rest)
    else if c == '<' then
      if peek == '=' then
        .ok (some (.LessThanEqualsTo, startPos), state, advanceCore pos1, rest.tail)
      else if peek == '-' then
        .ok (some (.Reserved "<-", startPos), state, advanceCore pos1, rest.tail)
      else if peek == '<' then
        let pos2 := advanceCore pos1
        let rest2 := rest.tail
        if rest2.head? == some '=' then
          .ok (some (.LeftShiftAssign, startPos), state, advanceCore pos2, rest2.tail)
        else .ok (some (.LeftShift, startPos), state, pos2, rest2)
      else .ok (some (.LessThan, startPos), state, pos1, rest)
    else if c == '>' then
      if peek == '=' then
        .ok (some (.GreaterThanEqualsTo, startPos), state, advanceCore pos1, rest.tail)
      else if peek == '>' then
        let pos2 := advanceCore pos1
        let rest2 := rest.tail
        if rest2.head? == some '=' then
          .ok (some (.RightShiftAssign, startPos), state, advanceCore pos2, rest2.tail)
        else .ok (some (.RightShift, startPos), state, pos2, rest2)
      else .ok (some (.GreaterThan, startPos), state, pos1, rest)
    else if c == '!' then
      if peek == '=' then
        let pos2 := advanceCore pos1
        let rest2 := rest.tail
        if rest2.head? == some '=' then
          .ok (some (.Reserved "!==", startPos), state, advanceCore pos2, rest2.tail)
        else .ok (some (.NotEqualsTo, startPos), state, pos2, rest2)
      else .ok (some (.Bang, startPos), state, pos1, rest)
    else if c == '|' then
      if peek == '|' then
        .ok (some (.Or, startPos), state, advanceCore pos1, rest.tail)
      else if peek == '=' then
        .ok (some (.OrAssign, startPos), state, advanceCore pos1, rest.tail)
      else .ok (some (.Pipe, startPos), state, pos1, rest)
    else if c == '&' then
      if peek == '&' then
        .ok (some (.And, startPos), state, advanceCore pos1, rest.tail)
      else if peek == '=' then
        .ok (some (.AndAssign, startPos), state, advanceCore pos1, rest.tail)
      else .ok (some (.Ampersand, startPos), state, pos1, rest)
    else if c == '^' then
      if peek == '=' then
        .ok (some (.XOrAssign, startPos), state, advanceCore pos1, rest.tail)
      else .ok (some (.XOr, startPos), state, pos1, rest)
    else if c == '~' then .ok (some (.Reserved "~", startPos), state, pos1, rest)
    else if c == '%' then
      if peek == '=' then
        .ok (some (.ModuloAssign, startPos), state, advanceCore pos1, rest.tail)
      else .ok (some (.Modulo, startPos), state, pos1, rest)
    else if c == '@' then .ok (some (.Reserved "@", startPos), state, pos1, rest)
    else if c == '$' then .ok (some (.Reserved "$", startPos), state, pos1, rest)
    else if rustIsWhitespace c then mainLoop fuel negated state pos1 rest
    else .ok (some (.LexError (.UnexpectedInput (String.mk [c])), startPos), state, pos1, rest)

/-- `get_next_token_inner`: first the still-inside-a-comment resumption
block, then the main dispatch loop.  The `comment.as_ref().unwrap()`
of the resumption block panics when comments are not being retained and
doc-comments are enabled (modelled by `Stuck.panicked`). -/
def getNextTokenInner (state : TokenizeState) (pos : Position)
    (stream : List Char) : StepResult :=
  if state.comment_level > 0 then
    let startPos := pos
    let comment0 : Option (List Char) :=
      if state.include_comments then some [] else none
    let (lvl, pos1, comment1, rest1) :=
      scanBlockComment state.comment_level pos comment0 stream
    let state1 := { state with comment_level := lvl }
    if state.include_comments then
      .ok (some (.Comment (String.mk (comment1.getD [])), startPos), state1, pos1, rest1)
    else if !state.disable_doc_comments then
      -- `is_doc_comment(comment.as_ref().unwrap())` with `comment = None`
      .error .panicked
    else mainLoop (rest1.length + 1) false state1 pos1 rest1
  else mainLoop (stream.length + 1) false state pos stream

/-- `get_next_token`: run `get_next_token_inner`, then record the
emitted token's unary/binary classification in `state.non_unary`. -/
def getNextToken (state : TokenizeState) (pos : Position)
    (stream : List Char) : StepResult :=
  match getNextTokenInner state pos stream with
  | .error e => .error e
  | .ok (result, state1, pos1, rest1) =>
    let state2 :=
      match result with
      | some (tok, _) => { state1 with non_unary := !isNextUnary tok }
      | none => state1
    .ok (result, state2, pos1, rest1)

/-- Collect the tokens produced by repeated `get_next_token` calls on a
fresh default session, up to (and excluding) the `EOF` token; `none` if
the session panics or the fuel (input length plus one calls, enough for
any input since every non-`EOF` token consumes input) runs out. -/
def tokensFrom : Nat → TokenizeState → Position → List Char → List Token →
    Option (List Token)
  | 0, _, _, _, _ => none
  | fuel + 1, state, pos, stream, acc =>
    match getNextToken state pos stream with
    | .error _ => none
    | .ok (none, _, _, _) => some acc.reverse
    | .ok (some (.EOF, _), _, _, _) => some acc.reverse
    | .ok (some (tok, _), state1, pos1, rest1) =>
      tokensFrom fuel state1 pos1 rest1 (tok :: acc)

/-- All tokens of an input string under the default session settings
(`Engine::lex_raw` with a default engine), excluding the final `EOF`. -/
def tokensOf (s : String) : Option (List Token) :=
  tokensFrom (s.length + 1) defaultState ⟨1, 0⟩ s.data []

/-- The first token produced for an input string under the default
session settings. -/
def firstTokenFresh (s : String) : Option Token :=
  match getNextToken defaultState ⟨1, 0⟩ s.data with
  | .ok (some (t, _), _, _, _) => some t
  | _ => none

/-- The host configuration consulted by the token-stream layer: the
custom-keyword table and the disabled-symbol set of the `Engine`
(membership-only views, as in the source). -/
structure EngineCfg where
  custom_keywords : List String
  disabled_symbols : List String
deriving DecidableEq

/-- The `Token::Reserved` arm of `TokenIterator::next`: the match on
`(s.as_str(), custom_keywords.contains_key(&s))`.  The source lists the
`(text, false)` diagnostic arms first and `(_, true)` afterwards; since
every diagnostic arm requires the `false` flag, checking the
custom-keyword table first is equivalent. -/
def reservedToken (eng : EngineCfg) (s : String) : Token :=
  if eng.custom_keywords.contains s then .Custom s
  else if s = "===" then
    .LexError (.ImproperSymbol s
      "'===' is not a valid operator. This is not JavaScript! Should it be '=='?")
  else if s = "!==" then
    .LexError (.ImproperSymbol s
      "'!==' is not a valid operator. This is not JavaScript! Should it be '!='?")
  else if s = "->" then
    .LexError (.ImproperSymbol s
      "'->' is not a valid symbol. This is not C or C++!")
  else if s = "<-" then
    .LexError (.ImproperSymbol s
      "'<-' is not a valid symbol. This is not Go! Should it be '<='?")
  else if s = ":=" then
    .LexError (.ImproperSymbol s
      "':=' is not a valid assignment operator. This is not Go or Pascal! Should it be simply '='?")
  else if s = "::<" then
    .LexError (.ImproperSymbol s
      "'::<>' is not a valid symbol. This is not Rust! Should it be '::'?")
  else if s = "(*" || s = "*)" || s = "begin" || s = "end" then
    .LexError (.ImproperSymbol s
      "'(* .. *)' is not a valid comment format. This is not Pascal! Should it be '/* .. */'?")
  else if s = "#" then
    .LexError (.ImproperSymbol s
      "'#' is not a valid symbol. Should it be '#\x7b'?")
  else if !isValidIdentifierStr s then
    .LexError (.ImproperSymbol s ("'" ++ s ++ "' is a reserved symbol"))
  else if eng.disabled_symbols.contains s then
    .LexError (.ImproperSymbol s ("reserved symbol '" ++ s ++ "' is disabled"))
  else .Reserved s

/-- Arms 3-5 of the `TokenIterator::next` match (raw token neither a
reserved symbol nor an identifier registered as custom): the
custom-keyword check on the canonical syntax text (with the
`unreachable!` for a non-disabled hit, modelled as `Stuck.panicked`),
then the disabled-symbol demotion, then pass-through. -/
def restCase (eng : EngineCfg) (tok : Token) (pos : Position) :
    Except Stuck (Option (Token × Position)) :=
  if eng.custom_keywords.contains (tokenText tok) then
    if eng.disabled_symbols.contains (tokenText tok) then
      .ok (some (.Custom (tokenText tok), pos))
    else .error .panicked
  else if eng.disabled_symbols.contains (tokenText tok) then
    .ok (some (.Reserved (tokenText tok), pos))
  else .ok (some (tok, pos))

/-- The token post-processing of `TokenIterator::next` applied to the
raw result of `get_next_token` (before the optional user remapping
function, which the source applies last and unconditionally). -/
def tokenPostprocess (eng : EngineCfg) (r : Option (Token × Position)) :
    Except Stuck (Option (Token × Position)) :=
  match r with
  | none => .ok none
  | some (.Reserved s, pos) => .ok (some (reservedToken eng s, pos))
  | some (.Identifier s, pos) =>
    if eng.custom_keywords.contains s then .ok (some (.Custom s, pos))
    else restCase eng (.Identifier s) pos
  | some (tok, pos) => restCase eng tok pos

/-- The host-configuration precondition of the custom-keyword
consistency claim, phrased decidably: no string registered in the
custom-keyword table is the syntax of an active standard keyword or
standard symbol (per `Token::lookup_from_syntax`). -/
def noActiveKeywordCustom (eng : EngineCfg) : Bool :=
  eng.custom_keywords.all (fun s =>
    match lookupFromText s with
    | some t => !(isKeywordTok t || isSymbolTok t)
    | none => true)

/-! ## Theorems -/

/-- C6 (counterexample): splice-addition does not satisfy the claimed
arithmetic identity for all non-sentinel `b`.  At `a = b = (65535, 0)`
(reachable, since lines saturate at 65535) the `u16` computation wraps
(debug builds panic), producing line 65533 instead of the claimed
`65535 + 65535 - 1 = 131069`. -/
theorem position_add_splice_counterexample :
    Position.is_none ⟨65535, 0⟩ = false ∧
    (addPos ⟨65535, 0⟩ ⟨65535, 0⟩).line = 65533 ∧
    (addPos ⟨65535, 0⟩ ⟨65535, 0⟩).line ≠ 65535 + 65535 - 1 := by
  refine ⟨rfl, by decide, by decide⟩

/-- C6 (amended): for positions `a`, `b` with `b` not the sentinel, and
whose coordinate sums stay within the `u16` computation range (so that
`a + b - 1` neither underflows nor overflows), splice-addition produces
line `a.line + b.line - 1`, and column `a.pos` when `b` is at the
beginning of a line, otherwise `a.pos + b.pos - 1`. -/
theorem position_add_splice_amended (a b : Position)
    (hb : b.is_none = false)
    (hl1 : 1 ≤ a.line + b.line) (hl2 : a.line + b.line ≤ 65536)
    (hp : b.isBeginningOfLine = false → 1 ≤ a.pos + b.pos ∧ a.pos + b.pos ≤ 65536) :
    (addPos a b).line = a.line + b.line - 1 ∧
    (addPos a b).pos =
      if b.isBeginningOfLine then a.pos else a.pos + b.pos - 1 := by
  unfold addPos
  rw [hb]
  simp only [Bool.false_eq_true, if_false]
  cases hbol : b.isBeginningOfLine with
  | true => refine ⟨by simpa using by omega, by simp⟩
  | false =>
    have hp2 := hp hbol
    refine ⟨by simpa using by omega, by simpa using by omega⟩

/-- C6 (witness for the amended theorem): a concrete splice. -/
theorem position_add_splice_amended_witness :
    (addPos ⟨1, 0⟩ ⟨2, 3⟩).line = 1 + 2 - 1 ∧
    (addPos ⟨1, 0⟩ ⟨2, 3⟩).pos =
      if Position.isBeginningOfLine ⟨2, 3⟩ then 0 else 0 + 3 - 1 :=
  position_add_splice_amended ⟨1, 0⟩ ⟨2, 3⟩ (by decide) (by decide) (by decide)
    (by decide)

/-- C7: for every non-sentinel position (with a `u16`-ranged line
number), `advance` never errors, never changes the line, and leaves the
column unchanged once it equals 65535; `new_line` never errors, leaves
the position entirely unchanged once the line equals 65535, and
otherwise increments the line and resets the column to 0. -/
theorem position_saturation (p : Position) (h : p.is_none = false) :
    (∃ q, p.advance = some q ∧ q.line = p.line ∧ (p.pos = 65535 → q = p)) ∧
    (∃ r, p.new_line = some r ∧ (p.line = 65535 → r = p) ∧
      (p.line < 65535 → r.line = p.line + 1 ∧ r.pos = 0)) := by
  refine ⟨⟨advanceCore p, ?_, ?_, ?_⟩, ⟨newLineCore p, ?_, ?_, ?_⟩⟩
  · simp [Position.advance, h]
  · unfold advanceCore; split <;> rfl
  · intro hp; unfold advanceCore; rw [hp]; simp
  · simp [Position.new_line, h]
  · intro hl2; unfold newLineCore; rw [hl2]; simp
  · intro hl2; unfold newLineCore; simp [hl2]

/-- C7 (witness): the saturation properties at the start position. -/
theorem position_saturation_witness :
    (∃ q, Position.advance ⟨1, 0⟩ = some q ∧
      q.line = Position.line ⟨1, 0⟩ ∧ (Position.pos ⟨1, 0⟩ = 65535 → q = ⟨1, 0⟩)) ∧
    (∃ r, Position.new_line ⟨1, 0⟩ = some r ∧
      (Position.line ⟨1, 0⟩ = 65535 → r = ⟨1, 0⟩) ∧
      (Position.line ⟨1, 0⟩ < 65535 → r.line = Position.line ⟨1, 0⟩ + 1 ∧ r.pos = 0)) :=
  position_saturation ⟨1, 0⟩ (by decide)

/-- C3: whenever the string/char-literal scanning loop meets a raw
(unescaped, i.e. with an empty pending-escape buffer) newline before the
closing quote — and the length ceiling has not already been exceeded,
which would error first — it returns an unterminated-string error
reported at the literal-start position captured on entry, and the
scanning position it leaves behind is the position after consuming the
newline rewound by exactly one column. -/
theorem string_newline_unterminated (maxLen : Option Nat) (enc : Char)
    (start pos : Position) (rest result : List Char) (fuel : Nat)
    (henc : enc = '"' ∨ enc = '\'')
    (hmax : ∀ m, maxLen = some m → result.length ≤ m) :
    pslLoop maxLen enc start (fuel + 1) ('\n' :: rest) pos result [] =
      some (.error (.UnterminatedString, start), rewindCore (advanceCore pos), rest) ∧
    (rewindCore (advanceCore pos)).pos = (advanceCore pos).pos - 1 := by
  have hm : maxExceeded maxLen result.length = false := by
    cases maxLen with
    | none => rfl
    | some m =>
      have h2 := hmax m rfl
      simp only [maxExceeded, decide_eq_false_iff_not, Nat.not_lt]
      omega
  refine ⟨?_, rfl⟩
  rcases henc with h | h <;> subst h <;> simp [pslLoop, hm]

/-- C3 (witness): a concrete mid-literal newline. -/
theorem string_newline_unterminated_witness :
    pslLoop none '"' ⟨1, 5⟩ 1 ['\n'] ⟨1, 8⟩ ['a'] [] =
      some (.error (.UnterminatedString, ⟨1, 5⟩),
        rewindCore (advanceCore ⟨1, 8⟩), []) ∧
    (rewindCore (advanceCore ⟨1, 8⟩)).pos = (advanceCore ⟨1, 8⟩).pos - 1 :=
  string_newline_unterminated none '"' ⟨1, 5⟩ ⟨1, 8⟩ [] ['a'] 0 (Or.inl rfl)
    (fun _ hm => nomatch hm)

/-- Helper for the block-comment claims: `scan_block_comment` stops with
a nonzero level only by exhausting the input, and leaves input behind
only when the level has reached 0. -/
theorem scanBC_stop (level : Nat) (pos : Position) (comment : Option (List Char))
    (stream : List Char) :
    ((scanBlockComment level pos comment stream).2.2.2 ≠ [] →
      (scanBlockComment level pos comment stream).1 = 0) ∧
    ((scanBlockComment level pos comment stream).1 ≠ 0 →
      (scanBlockComment level pos comment stream).2.2.2 = []) := by
  induction level, pos, comment, stream using scanBlockComment.induct with
  | case1 level pos comment => simp [scanBlockComment]
  | case2 level pos comment rest ih =>
    simpa only [scanBlockComment] using ih
  | case3 level pos comment rest h =>
    have h2 : level - 1 = 0 := by simpa using h
    simp [scanBlockComment, if_pos h, h2]
  | case4 level pos comment rest pos2 comment2 h ih =>
    simp only [scanBlockComment, if_neg h]
    exact ih
  | case5 level pos comment rest h =>
    have h2 : level = 0 := by simpa using h
    simp [scanBlockComment, if_pos h, h2]
  | case6 level pos comment rest pos2 comment2 h ih =>
    simp only [scanBlockComment, if_neg h]
    exact ih
  | case7 level pos comment c rest h1 h2 h3 h =>
    have h4 : level = 0 := by simpa using h
    simp [scanBlockComment, if_pos h, h4]
  | case8 level pos comment c rest h1 h2 h3 pos2 comment2 h ih =>
    simp only [scanBlockComment, if_neg h]
    exact ih

/-- C5: block-comment scanning maintains the nesting counter — a leading
`/*` increments it, a leading `*/` decrements it and stops the scan
exactly when it reaches 0 — scanning otherwise stops only at end of
input (a nonzero final level means everything was consumed; leftover
input means the level reached 0); and an unterminated block comment
produces no error token: `"/* never closes"` lexes to no tokens at all,
the tokenizer emitting `EOF` with the nonzero nesting counter merely
left in the state. -/
theorem block_comment_nesting :
    (∀ stream level pos comment,
      ((scanBlockComment level pos comment stream).1 ≠ 0 →
        (scanBlockComment level pos comment stream).2.2.2 = []) ∧
      ((scanBlockComment level pos comment stream).2.2.2 ≠ [] →
        (scanBlockComment level pos comment stream).1 = 0)) ∧
    (∀ s level pos comment,
      scanBlockComment level pos comment ('/' :: '*' :: s) =
        scanBlockComment (level + 1) (advanceCore (advanceCore pos))
          (comment.map (· ++ ['/', '*'])) s) ∧
    (∀ s level pos comment, 1 ≤ level →
      scanBlockComment level pos comment ('*' :: '/' :: s) =
        if level = 1 then
          (0, advanceCore (advanceCore pos), comment.map (· ++ ['*', '/']), s)
        else
          scanBlockComment (level - 1) (advanceCore (advanceCore pos))
            (comment.map (· ++ ['*', '/'])) s) ∧
    tokensOf "/* never closes" = some [] ∧
    getNextTokenInner defaultState ⟨1, 0⟩ ("/* never closes".data) =
      .ok (some (.EOF, ⟨1, 16⟩), ⟨none, false, 1, false, false, false⟩, ⟨1, 16⟩, []) := by
  refine ⟨?_, ?_, ?_, by decide, by decide⟩
  · intro stream level pos comment
    exact ⟨(scanBC_stop level pos comment stream).2,
      (scanBC_stop level pos comment stream).1⟩
  · intro s level pos comment
    rfl
  · intro s level pos comment h
    by_cases hl : level = 1
    · subst hl
      simp [scanBlockComment]
    · have h2 : ¬((level - 1 == 0) = true) := by
        simp only [beq_iff_eq]
        omega
      rw [if_neg hl]
      simp only [scanBlockComment, if_neg h2]

/-- C5 (witness): the decrement step at nesting level 2. -/
theorem block_comment_nesting_witness :
    scanBlockComment 2 ⟨1, 0⟩ none ('*' :: '/' :: ['x']) =
      if 2 = 1 then
        (0, advanceCore (advanceCore ⟨1, 0⟩), Option.map (· ++ ['*', '/']) none, ['x'])
      else
        scanBlockComment (2 - 1) (advanceCore (advanceCore ⟨1, 0⟩))
          (Option.map (· ++ ['*', '/']) none) ['x'] :=
  block_comment_nesting.2.2.1 ['x'] 2 ⟨1, 0⟩ none (by decide)

/-- C4 (counterexample): after the binary radix prefix `0b` the scanner
consumes `'2'` — which is neither a binary digit nor the separator —
because the digit test installed for `0o`/`0b` prefixes is
`is_numeric_digit` (0-9), not the radix's own digit set: `"0b2"` lexes
to the single malformed-number token `0b2` instead of ending the
literal at `0b` and leaving `'2'` for the next token. -/
theorem radix_digit_consumption_counterexample :
    ('2' ≠ '0' ∧ '2' ≠ '1' ∧ '2' ≠ '_') ∧
    numberLoop '0' 2 false (some 2) ['0', 'b'] ⟨1, 3⟩ ['2'] =
      (['0', 'b', '2'], some 2, advanceCore ⟨1, 3⟩, []) ∧
    tokensOf "0b2" = some [.LexError (.MalformedNumber "0b2")] := by
  refine ⟨by decide, by decide, by decide⟩

/-- C4 (amended): after a radix prefix, the digit loop consumes a
character (that is not one of the `.`/`e` float-continuation characters)
if and only if it passes the installed digit test — hexadecimal digits
for `0x`/`0X`, but decimal digits 0-9 (not the radix's own digit set)
for `0o`/`0O` and `0b`/`0B` — or is the separator `'_'`; the first
lookahead character failing this ends the literal and is left in the
stream.  The last six conjuncts show the digit test and radix selected
by each prefix character. -/
theorem radix_digit_consumption_amended (r : Nat) (hexd : Bool)
    (hr : (r = 16 ∧ hexd = true) ∨ ((r = 8 ∨ r = 2) ∧ hexd = false))
    (result : List Char) (pos : Position) (ch : Char) (rest : List Char)
    (fuel : Nat) (hlen : 2 ≤ result.length) (hdot : ch ≠ '.') (he : ch ≠ 'e') :
    (((if hexd then isHexDigit ch else isNumericDigit ch) || ch == '_') = true →
      numberLoop '0' (fuel + 1) hexd (some r) result pos (ch :: rest) =
        numberLoop '0' fuel hexd (some r) (result ++ [ch]) (advanceCore pos) rest) ∧
    (((if hexd then isHexDigit ch else isNumericDigit ch) || ch == '_') = false →
      numberLoop '0' (fuel + 1) hexd (some r) result pos (ch :: rest) =
        (result, some r, pos, ch :: rest)) ∧
    (∀ p2 s2, numberLoop '0' (fuel + 1) false none ['0'] p2 ('x' :: s2) =
      numberLoop '0' fuel true (some 16) ['0', 'x'] (advanceCore p2) s2) ∧
    (∀ p2 s2, numberLoop '0' (fuel + 1) false none ['0'] p2 ('X' :: s2) =
      numberLoop '0' fuel true (some 16) ['0', 'X'] (advanceCore p2) s2) ∧
    (∀ p2 s2, numberLoop '0' (fuel + 1) false none ['0'] p2 ('o' :: s2) =
      numberLoop '0' fuel false (some 8) ['0', 'o'] (advanceCore p2) s2) ∧
    (∀ p2 s2, numberLoop '0' (fuel + 1) false none ['0'] p2 ('O' :: s2) =
      numberLoop '0' fuel false (some 8) ['0', 'O'] (advanceCore p2) s2) ∧
    (∀ p2 s2, numberLoop '0' (fuel + 1) false none ['0'] p2 ('b' :: s2) =
      numberLoop '0' fuel false (some 2) ['0', 'b'] (advanceCore p2) s2) ∧
    (∀ p2 s2, numberLoop '0' (fuel + 1) false none ['0'] p2 ('B' :: s2) =
      numberLoop '0' fuel false (some 2) ['0', 'B'] (advanceCore p2) s2) := by
  refine ⟨?_, ?_, fun p2 s2 => rfl, fun p2 s2 => rfl, fun p2 s2 => rfl,
    fun p2 s2 => rfl, fun p2 s2 => rfl, fun p2 s2 => rfl⟩
  · intro h
    simp only [numberLoop, h, if_true]
  · intro h
    have hd : (ch == '.') = false := by simpa using hdot
    have he2 : (ch == 'e') = false := by simpa using he
    have hl2 : decide (result.length ≤ 1) = false := by
      simp only [decide_eq_false_iff_not, Nat.not_le]
      omega
    simp [numberLoop, h, hd, he2, hl2]

/-- C4 (witness for the amended theorem): `'7'` is consumed after the
`0b` prefix (via the decimal digit test). -/
theorem radix_digit_consumption_amended_witness :
    numberLoop '0' (5 + 1) false (some 2) ['0', 'b'] ⟨1, 3⟩ ('7' :: []) =
      numberLoop '0' 5 false (some 2) (['0', 'b'] ++ ['7']) (advanceCore ⟨1, 3⟩) [] :=
  (radix_digit_consumption_amended 2 false (Or.inr ⟨Or.inr rfl, rfl⟩)
    ['0', 'b'] ⟨1, 3⟩ '7' [] 5 (by decide) (by decide) (by decide)).1 (by decide)

/-- C2: with the tokenizer state marking the next `+`/`-` unary
(`non_unary = false`), a `-` immediately followed by a decimal digit is
folded into the numeric literal (the scan proceeds as the literal scan
of the digit with `negated = true`, emitting no separate `Minus`);
with the state marking it binary, a `Minus` token is emitted and the
digit is left in the stream.  Concretely, `"-5"` lexes to the single
integer constant `-5` and `"x - 5"` to exactly identifier `x`, `Minus`,
integer constant `5`. -/
theorem unary_minus_disambiguation :
    tokensOf "-5" = some [.IntegerConstant (-5)] ∧
    tokensOf "x - 5" = some [.Identifier "x", .Minus, .IntegerConstant 5] ∧
    (∀ (st : TokenizeState) (pos : Position) (d : Char) (rest : List Char),
      st.comment_level = 0 → st.non_unary = false → isNumericDigit d = true →
      getNextTokenInner st pos ('-' :: d :: rest) =
        .ok (some ((numberToken true d (advanceCore (advanceCore pos)) rest).1,
            advanceCore (advanceCore pos)), st,
          (numberToken true d (advanceCore (advanceCore pos)) rest).2.1,
          (numberToken true d (advanceCore (advanceCore pos)) rest).2.2)) ∧
    (∀ (st : TokenizeState) (pos : Position) (d : Char) (rest : List Char),
      st.comment_level = 0 → st.non_unary = true → isNumericDigit d = true →
      getNextTokenInner st pos ('-' :: d :: rest) =
        .ok (some (.Minus, advanceCore pos), st, advanceCore pos, d :: rest)) := by
  refine ⟨by decide, by decide, ?_, ?_⟩
  · intro st pos d rest hc hnu hd
    have hne : (d == '\n') = false := by
      rcases eq_or_ne d '\n' with h | h
      · rw [h] at hd; exact absurd hd (by decide)
      · simpa using h
    have e1 : isNumericDigit '-' = false := by decide
    have e2 : isIdFirstAlphabetic '-' = false := by decide
    simp only [getNextTokenInner, hc, gt_iff_lt, Nat.lt_irrefl, if_false,
      List.length_cons]
    simp [mainLoop, hnu, hd, hne, e1, e2]
  · intro st pos d rest hc hnu hd
    have e1 : isNumericDigit '-' = false := by decide
    have e2 : isIdFirstAlphabetic '-' = false := by decide
    simp only [getNextTokenInner, hc, gt_iff_lt, Nat.lt_irrefl, if_false,
      List.length_cons]
    simp [mainLoop, hnu, hd, e1, e2]

/-- C2 (witness): the unary fold at the start of input. -/
theorem unary_minus_disambiguation_witness :
    getNextTokenInner defaultState ⟨1, 0⟩ ('-' :: '7' :: []) =
      .ok (some ((numberToken true '7' (advanceCore (advanceCore ⟨1, 0⟩)) []).1,
          advanceCore (advanceCore ⟨1, 0⟩)), defaultState,
        (numberToken true '7' (advanceCore (advanceCore ⟨1, 0⟩)) []).2.1,
        (numberToken true '7' (advanceCore (advanceCore ⟨1, 0⟩)) []).2.2) :=
  unary_minus_disambiguation.2.2.1 defaultState ⟨1, 0⟩ '7' [] rfl rfl (by decide)

/-- Helper for the char-literal safety claim: whenever the
string-literal scanning loop, started with empty accumulators on a
stream whose first character is not the enclosing quote, returns `Ok`,
the accumulated string is nonempty (the loop only stops on an enclosing
quote with no pending escape, and by then at least one character or a
completed escape has been pushed). -/
theorem pslLoop_ok_ne_nil (maxLen : Option Nat) (enc : Char) (start : Position) :
    ∀ (fuel : Nat) (stream : List Char) (pos : Position) (result escape : List Char)
      (out : List Char) (pos2 : Position) (rest2 : List Char),
      pslLoop maxLen enc start fuel stream pos result escape =
        some (.ok out, pos2, rest2) →
      (result = [] → escape = [] → stream.head? ≠ some enc) →
      out ≠ [] := by
  intro fuel
  induction fuel with
  | zero =>
    intro stream pos result escape out pos2 rest2 h hinv
    simp [pslLoop] at h
  | succ n ih =>
    intro stream pos result escape out pos2 rest2 h hinv
    cases stream with
    | nil => simp [pslLoop] at h
    | cons ch rest =>
      simp only [pslLoop] at h
      by_cases hm : maxExceeded maxLen result.length = true
      · rw [if_pos hm] at h
        exact absurd h (by simp)
      · rw [if_neg hm] at h
        by_cases hc1 : (ch == '\\' && escape.isEmpty) = true
        · rw [if_pos hc1] at h
          exact ih _ _ _ _ _ _ _ h (fun _ he => by simp at he)
        · rw [if_neg hc1] at h
          by_cases hc2 : (ch == '\\' && !escape.isEmpty) = true
          · rw [if_pos hc2] at h
            exact ih _ _ _ _ _ _ _ h (fun hr _ => by simp at hr)
          · rw [if_neg hc2] at h
            by_cases hc3 : (ch == 't' && !escape.isEmpty) = true
            · rw [if_pos hc3] at h
              exact ih _ _ _ _ _ _ _ h (fun hr _ => by simp at hr)
            · rw [if_neg hc3] at h
              by_cases hc4 : (ch == 'n' && !escape.isEmpty) = true
              · rw [if_pos hc4] at h
                exact ih _ _ _ _ _ _ _ h (fun hr _ => by simp at hr)
              · rw [if_neg hc4] at h
                by_cases hc5 : (ch == 'r' && !escape.isEmpty) = true
                · rw [if_pos hc5] at h
                  exact ih _ _ _ _ _ _ _ h (fun hr _ => by simp at hr)
                · rw [if_neg hc5] at h
                  by_cases hc6 : ((ch == 'x' || ch == 'u' || ch == 'U') && !escape.isEmpty) = true
                  · rw [if_pos hc6] at h
                    rcases hred : readEscDigits (escape ++ [ch]) 0
                        (if ch == 'x' then 2 else if ch == 'u' then 4 else 8)
                        (advanceCore pos) rest with ⟨res, p3, r3⟩
                    rw [hred] at h
                    cases res with
                    | error e => exact absurd h (by simp)
                    | ok vp =>
                      rcases vp with ⟨v, seq2⟩
                      dsimp only at h
                      by_cases hval : isValidCharNat v = true
                      · rw [if_pos hval] at h
                        exact ih _ _ _ _ _ _ _ h (fun hr _ => by simp at hr)
                      · rw [if_neg hval] at h
                        exact absurd h (by simp)
                  · rw [if_neg hc6] at h
                    by_cases hc7 : (ch == enc && !escape.isEmpty) = true
                    · rw [if_pos hc7] at h
                      exact ih _ _ _ _ _ _ _ h (fun hr _ => by simp at hr)
                    · rw [if_neg hc7] at h
                      by_cases hc8 : (ch == enc && escape.isEmpty) = true
                      · rw [if_pos hc8] at h
                        by_cases hm2 : maxExceeded maxLen (utf8Len result) = true
                        · rw [if_pos hm2] at h
                          exact absurd h (by simp)
                        · rw [if_neg hm2] at h
                          simp only [Option.some.injEq, Prod.mk.injEq,
                            Except.ok.injEq] at h
                          intro ho
                          have h8 := hc8
                          simp only [Bool.and_eq_true, beq_iff_eq,
                            List.isEmpty_iff] at h8
                          have hres : result = [] := by rw [h.1, ho]
                          exact (hinv hres h8.2) (by simp [h8.1])
                      · rw [if_neg hc8] at h
                        by_cases hc9 : (!escape.isEmpty) = true
                        · rw [if_pos hc9] at h
                          exact absurd h (by simp)
                        · rw [if_neg hc9] at h
                          by_cases hc10 : (ch == '\n') = true
                          · rw [if_pos hc10] at h
                            exact absurd h (by simp)
                          · rw [if_neg hc10] at h
                            exact ih _ _ _ _ _ _ _ h (fun hr _ => by simp at hr)

/-- C10: the empty character literal `''` is intercepted — on a quote
immediately followed by a second quote the tokenizer emits a
malformed-character error without invoking the string-literal scanner
(and without consuming the second quote); every char-literal invocation
of the scanner (first stream character not a quote) that succeeds
returns at least one code point; and consequently the char-literal
first-code-point extraction (`chars().next().unwrap()`) can never
panic: tokenizing any input starting with a quote never reaches the
panic outcome. -/
theorem char_literal_safety :
    (∀ (st : TokenizeState) (pos : Position) (rest : List Char),
      st.comment_level = 0 →
      getNextTokenInner st pos ('\'' :: '\'' :: rest) =
        .ok (some (.LexError (.MalformedChar ""), advanceCore pos), st,
          advanceCore pos, '\'' :: rest)) ∧
    (∀ (maxLen : Option Nat) (start : Position) (fuel : Nat) (stream : List Char)
      (pos : Position) (out : List Char) (pos2 : Position) (rest2 : List Char),
      stream.head? ≠ some '\'' →
      pslLoop maxLen '\'' start fuel stream pos [] [] = some (.ok out, pos2, rest2) →
      out ≠ []) ∧
    (∀ (st : TokenizeState) (pos : Position) (stream : List Char),
      st.comment_level = 0 →
      getNextTokenInner st pos ('\'' :: stream) ≠ .error .panicked) := by
  have e1 : isNumericDigit '\'' = false := by decide
  have e2 : isIdFirstAlphabetic '\'' = false := by decide
  refine ⟨?_, ?_, ?_⟩
  · intro st pos rest hc
    simp only [getNextTokenInner, hc, gt_iff_lt, Nat.lt_irrefl, if_false,
      List.length_cons]
    simp [mainLoop, e1, e2]
  · intro maxLen start fuel stream pos out pos2 rest2 hh hok
    exact pslLoop_ok_ne_nil maxLen '\'' start fuel stream pos [] [] out pos2 rest2
      hok (fun _ _ => hh)
  · intro st pos stream hc
    simp only [getNextTokenInner, hc, gt_iff_lt, Nat.lt_irrefl, if_false,
      List.length_cons]
    cases stream with
    | nil =>
      simp [mainLoop, e1, e2, parseStringLiteral, pslLoop]
    | cons c2 rest =>
      by_cases hq : (c2 == '\'') = true
      · simp [mainLoop, e1, e2, hq]
      · simp [mainLoop, e1, e2, hq]
        rcases hps : parseStringLiteral st '\'' (advanceCore pos) (c2 :: rest)
          with _ | ⟨res, p3, r3⟩
        · simp
        · rcases res with ⟨e, epos⟩ | outl
          · simp
          · cases outl with
            | nil =>
              exfalso
              have hq2 : c2 ≠ '\'' := by simpa using hq
              have hne : (c2 :: rest).head? ≠ some '\'' := by simp [hq2]
              unfold parseStringLiteral at hps
              exact pslLoop_ok_ne_nil st.max_string_size '\'' (advanceCore pos)
                ((c2 :: rest).length + 1) (c2 :: rest) (advanceCore pos) [] [] [] p3 r3
                hps (fun _ _ => hne) rfl
            | cons c1 cs => cases cs <;> simp

/-- C10 (witness): the intercepted empty literal at the start of input. -/
theorem char_literal_safety_witness :
    getNextTokenInner defaultState ⟨1, 0⟩ ('\'' :: '\'' :: []) =
      .ok (some (.LexError (.MalformedChar ""), advanceCore ⟨1, 0⟩), defaultState,
        advanceCore ⟨1, 0⟩, '\'' :: []) :=
  char_literal_safety.1 defaultState ⟨1, 0⟩ [] rfl

/-- C1 (counterexample): the round-trip fails for `Plus` — a fresh
tokenizer starts with `non_unary = false`, so the text `"+"` comes back
as `UnaryPlus`, not `Plus` (and likewise `"-"` comes back as
`UnaryMinus`). -/
theorem roundtrip_plus_counterexample :
    nonLiteralTok Token.Plus = true ∧
    firstTokenFresh (tokenText Token.Plus) = some Token.UnaryPlus ∧
    Token.UnaryPlus ≠ Token.Plus := by
  refine ⟨rfl, by decide, by decide⟩

/-- C1 (amended): for every token whose canonical syntax is a fixed
punctuation/operator/keyword text (the non-literal, non-`EOF` variants),
other than `Plus` and `Minus`, feeding `syntax()` back into a fresh
tokenizer reproduces the token exactly; `Plus` and `Minus` instead come
back as their unary variants (see the counterexample). -/
theorem roundtrip_nonliteral_amended (t : Token) (h : nonLiteralTok t = true)
    (hp : t ≠ Token.Plus) (hm : t ≠ Token.Minus) :
    firstTokenFresh (tokenText t) = some t := by
  cases t <;>
    first
      | exact absurd rfl hp
      | exact absurd rfl hm
      | exact Bool.noConfusion h
      | decide

/-- C1 (witness): the three-character operator `**=` round-trips. -/
theorem roundtrip_nonliteral_amended_witness :
    firstTokenFresh (tokenText Token.PowerOfAssign) = some Token.PowerOfAssign :=
  roundtrip_nonliteral_amended Token.PowerOfAssign (by decide) (by decide)
    (by decide)

/-- Helper: for a raw token that is neither a reserved symbol nor an
identifier, `TokenIterator::next`'s post-processing is exactly the
arms-3-5 case. -/
theorem postprocess_eq_restCase (eng : EngineCfg) (t : Token) (pos : Position)
    (h1 : isReservedTok t = false) (h2 : isIdentifierTok t = false) :
    tokenPostprocess eng (some (t, pos)) = restCase eng t pos := by
  cases t <;> first
    | rfl
    | exact Bool.noConfusion h1
    | exact Bool.noConfusion h2

/-- Helper: the canonical syntax text of an active standard keyword or
symbol looks up (via `Token::lookup_from_syntax`) to an active standard
keyword or symbol. -/
theorem lookup_of_keyword_symbol (t : Token)
    (h : (isKeywordTok t || isSymbolTok t) = true) :
    (match lookupFromText (tokenText t) with
      | some u => isKeywordTok u || isSymbolTok u
      | none => false) = true := by
  cases t <;> first
    | exact Bool.noConfusion h
    | decide

/-- C9 (counterexample): the host precondition "no active standard
keyword is registered as a custom keyword" does not make the panic
branch unreachable — registering `"a"` (not a standard keyword) as a
custom keyword satisfies the precondition, yet the char literal `'a'`
produces the raw token `CharConstant 'a'` whose canonical syntax text
`"a"` hits the custom-keyword check, and since `"a"` is not disabled the
layer panics. -/
theorem custom_keyword_panic_counterexample :
    noActiveKeywordCustom ⟨["a"], []⟩ = true ∧
    tokensOf "'a'" = some [.CharConstant 'a'] ∧
    tokenPostprocess ⟨["a"], []⟩ (some (.CharConstant 'a', ⟨1, 1⟩)) =
      .error .panicked := by
  refine ⟨by decide, by decide, by decide⟩

/-- C9 (amended): for every raw token that is neither a reserved-symbol
nor an identifier token and whose canonical syntax text is registered in
the custom-keyword table, the token-stream layer re-tags it as a
custom-keyword token when the text is disabled and panics when it is
not; and the panic branch is unreachable for active standard
keyword/symbol tokens under the precondition that no registered custom
keyword is the syntax of an active standard keyword or symbol (literal
tokens can still reach it — see the counterexample). -/
theorem custom_keyword_consistency_amended :
    (∀ (eng : EngineCfg) (t : Token) (pos : Position),
      isReservedTok t = false → isIdentifierTok t = false →
      eng.custom_keywords.contains (tokenText t) = true →
      (eng.disabled_symbols.contains (tokenText t) = true →
        tokenPostprocess eng (some (t, pos)) =
          .ok (some (.Custom (tokenText t), pos))) ∧
      (eng.disabled_symbols.contains (tokenText t) = false →
        tokenPostprocess eng (some (t, pos)) = .error .panicked)) ∧
    (∀ (eng : EngineCfg) (t : Token) (pos : Position),
      noActiveKeywordCustom eng = true →
      (isKeywordTok t || isSymbolTok t) = true →
      tokenPostprocess eng (some (t, pos)) ≠ .error .panicked) := by
  constructor
  · intro eng t pos h1 h2 hcc
    rw [postprocess_eq_restCase eng t pos h1 h2]
    have hcc2 : tokenText t ∈ eng.custom_keywords := by simpa using hcc
    constructor
    · intro hd
      have hd2 : tokenText t ∈ eng.disabled_symbols := by simpa using hd
      simp [restCase, hcc2, hd2]
    · intro hd
      have hd2 : tokenText t ∉ eng.disabled_symbols := by simpa using hd
      simp [restCase, hcc2, hd2]
  · intro eng t pos hpre hks hcontra
    have hr : isReservedTok t = false := by
      cases t <;> first | rfl | exact Bool.noConfusion hks
    have hi : isIdentifierTok t = false := by
      cases t <;> first | rfl | exact Bool.noConfusion hks
    rw [postprocess_eq_restCase eng t pos hr hi] at hcontra
    unfold restCase at hcontra
    by_cases hcc : eng.custom_keywords.contains (tokenText t) = true
    · have h2 := lookup_of_keyword_symbol t hks
      have hmem : tokenText t ∈ eng.custom_keywords := by simpa using hcc
      have h4 := (List.all_eq_true.mp
        (by simpa [noActiveKeywordCustom] using hpre)) _ hmem
      rcases hlook : lookupFromText (tokenText t) with _ | u
      · simp only [hlook] at h2
        exact Bool.noConfusion h2
      · simp only [hlook] at h2 h4
        simp only [Bool.and_eq_true, Bool.not_eq_true'] at h4
        simp only [h4.1, h4.2, Bool.or_self] at h2
        exact Bool.noConfusion h2
    · have hcc2 : eng.custom_keywords.contains (tokenText t) = false := by
        simpa using hcc
      by_cases hd : eng.disabled_symbols.contains (tokenText t) = true
      · rw [if_neg hcc, if_pos hd] at hcontra
        exact Except.noConfusion hcontra
      · rw [if_neg hcc, if_neg hd] at hcontra
        exact Except.noConfusion hcontra

/-- C9 (witness for the amended theorem): with an innocuous custom
keyword registered, a `LeftBrace` token passes through without panic. -/
theorem custom_keyword_consistency_amended_witness :
    tokenPostprocess ⟨["myop"], []⟩ (some (.LeftBrace, ⟨1, 1⟩)) ≠
      .error .panicked :=
  custom_keyword_consistency_amended.2 ⟨["myop"], []⟩ .LeftBrace ⟨1, 1⟩
    (by decide) (by decide)

/-- C8 (counterexample): `"begin"` is a valid identifier-shaped symbol,
yet — not being registered as custom and not disabled — it produces the
Pascal-comment diagnostic error, not the plain reserved-symbol token the
claim prescribes for identifier-shaped, non-disabled text: the
mistyped-foreign-symbol table is applied regardless of identifier
shape. -/
theorem reserved_begin_counterexample :
    isValidIdentifierStr "begin" = true ∧
    EngineCfg.custom_keywords ⟨[], []⟩ = [] ∧
    EngineCfg.disabled_symbols ⟨[], []⟩ = [] ∧
    reservedToken ⟨[], []⟩ "begin" =
      .LexError (.ImproperSymbol "begin"
        "'(* .. *)' is not a valid comment format. This is not Pascal! Should it be '/* .. */'?") ∧
    reservedToken ⟨[], []⟩ "begin" ≠ .Reserved "begin" := by
  refine ⟨by decide, rfl, rfl, by decide, by decide⟩

/-- C8 (amended): for a raw reserved-symbol token whose text is not
registered as a custom keyword, arm 1 of the token-stream layer
produces: an improper-symbol diagnostic whenever the text is in the
fixed mistyped-foreign-symbol table (`===`, `!==`, `->`, `<-`, `:=`,
`::<`, `(*`, `*)`, `begin`, `end`, `#`), regardless of identifier
shape; otherwise a generic reserved-symbol error when the text fails
identifier-shape validation; otherwise a disabled-symbol error when the
text is in the disabled-symbol set; and otherwise the reserved-symbol
token unchanged. -/
theorem reserved_symbol_classification_amended (eng : EngineCfg) (s : String)
    (hc : eng.custom_keywords.contains s = false) :
    (s ∈ ["===", "!==", "->", "<-", ":=", "::<", "(*", "*)", "begin", "end", "#"] →
      ∃ msg, reservedToken eng s = .LexError (.ImproperSymbol s msg)) ∧
    (s ∉ ["===", "!==", "->", "<-", ":=", "::<", "(*", "*)", "begin", "end", "#"] →
      isValidIdentifierStr s = false →
      reservedToken eng s =
        .LexError (.ImproperSymbol s ("'" ++ s ++ "' is a reserved symbol"))) ∧
    (s ∉ ["===", "!==", "->", "<-", ":=", "::<", "(*", "*)", "begin", "end", "#"] →
      isValidIdentifierStr s = true → eng.disabled_symbols.contains s = true →
      reservedToken eng s =
        .LexError (.ImproperSymbol s
          ("reserved symbol '" ++ s ++ "' is disabled"))) ∧
    (s ∉ ["===", "!==", "->", "<-", ":=", "::<", "(*", "*)", "begin", "end", "#"] →
      isValidIdentifierStr s = true → eng.disabled_symbols.contains s = false →
      reservedToken eng s = .Reserved s) := by
  have hc2 : s ∉ eng.custom_keywords := by simpa using hc
  refine ⟨?_, ?_, ?_, ?_⟩
  · intro hs
    simp only [List.mem_cons, List.not_mem_nil, or_false] at hs
    rcases hs with rfl | rfl | rfl | rfl | rfl | rfl | rfl | rfl | rfl | rfl | rfl <;>
      exact ⟨_, by simp [reservedToken, hc2]; try rfl⟩
  · intro hs hval
    obtain ⟨n1, n2, n3, n4, n5, n6, n7, n8, n9, n10, n11⟩ :
        s ≠ "===" ∧ s ≠ "!==" ∧ s ≠ "->" ∧ s ≠ "<-" ∧ s ≠ ":=" ∧ s ≠ "::<" ∧
        s ≠ "(*" ∧ s ≠ "*)" ∧ s ≠ "begin" ∧ s ≠ "end" ∧ s ≠ "#" := by
      simpa [not_or] using hs
    simp [reservedToken, hc2, n1, n2, n3, n4, n5, n6, n7, n8, n9, n10, n11, hval]
  · intro hs hval hd
    obtain ⟨n1, n2, n3, n4, n5, n6, n7, n8, n9, n10, n11⟩ :
        s ≠ "===" ∧ s ≠ "!==" ∧ s ≠ "->" ∧ s ≠ "<-" ∧ s ≠ ":=" ∧ s ≠ "::<" ∧
        s ≠ "(*" ∧ s ≠ "*)" ∧ s ≠ "begin" ∧ s ≠ "end" ∧ s ≠ "#" := by
      simpa [not_or] using hs
    have hd2 : s ∈ eng.disabled_symbols := by simpa using hd
    simp [reservedToken, hc2, n1, n2, n3, n4, n5, n6, n7, n8, n9, n10, n11, hval, hd2]
  · intro hs hval hd
    obtain ⟨n1, n2, n3, n4, n5, n6, n7, n8, n9, n10, n11⟩ :
        s ≠ "===" ∧ s ≠ "!==" ∧ s ≠ "->" ∧ s ≠ "<-" ∧ s ≠ ":=" ∧ s ≠ "::<" ∧
        s ≠ "(*" ∧ s ≠ "*)" ∧ s ≠ "begin" ∧ s ≠ "end" ∧ s ≠ "#" := by
      simpa [not_or] using hs
    have hd2 : s ∉ eng.disabled_symbols := by simpa using hd
    simp [reservedToken, hc2, n1, n2, n3, n4, n5, n6, n7, n8, n9, n10, n11, hval, hd2]

/-- C8 (witness for the amended theorem): the identifier-shaped reserved
word `shared`, disabled by the host, becomes a disabled-symbol error. -/
theorem reserved_symbol_classification_amended_witness :
    reservedToken ⟨[], ["shared"]⟩ "shared" =
      .LexError (.ImproperSymbol "shared"
        ("reserved symbol '" ++ "shared" ++ "' is disabled")) :=
  (reserved_symbol_classification_amended ⟨[], ["shared"]⟩ "shared"
    (by decide)).2.2.1 (by decide) (by decide) (by decide)

end Rhai
